import Mathlib

/-!
Verification of the ibcswap-wasm AMM contracts.

The first part embeds the pure pool/market-maker layer from
`src/101-integration/contracts/src/market.rs`; the second part embeds the
ics101 message handlers from `src/contracts/ics101/src/contract.rs` and
`src/contracts/ics101/src/interchainswap_handler.rs`.

Machine integers follow cosmwasm semantics: `Uint128` values are naturals
that the contract aborts (panics) on when an operation leaves `[0, 2^128)`,
and `Decimal` is an 18-decimal fixed-point number represented by its atomics
(a natural `< 2^128`).  Panics are modelled as an explicit error constructor,
kept distinct from the `StdError`-style error returns of the source.
-/

/-- A cosmwasm `Coin`: a denomination string and a `Uint128` amount. -/
structure Coin where
  denom : String
  amount : Nat
  deriving DecidableEq

/-- The distinct ways the Rust source can abort (panic) rather than
return an error value. -/
inductive PanicKind where
  | divideByZero
  | mulOverflow
  | addOverflow
  | subOverflow
  | idxOOB
  | unwrapNone
  deriving DecidableEq

instance {e a : Type} [DecidableEq e] [DecidableEq a] : DecidableEq (Except e a) := fun x y =>
  match x, y with
  | .ok u, .ok v =>
      if h : u = v then .isTrue (by rw [h]) else .isFalse (by intro hc; cases hc; exact h rfl)
  | .error u, .error v =>
      if h : u = v then .isTrue (by rw [h]) else .isFalse (by intro hc; cases hc; exact h rfl)
  | .ok _, .error _ => .isFalse (by intro hc; cases hc)
  | .error _, .ok _ => .isFalse (by intro hc; cases hc)

/-- One past the largest `Uint128` value. -/
def U128 : Nat := 2 ^ 128

/-- `Decimal::DECIMAL_FRACTIONAL`: atomics per unit (10^18). -/
def DECIMAL_FRACTIONAL : Nat := 10 ^ 18

/-- Atomics of `Decimal::MAX`. -/
def DECIMAL_MAX : Nat := 2 ^ 128 - 1

theorem mbindOk {e a b : Type} (x : a) (f : a → Except e b) :
    (Except.ok x >>= f) = f x := rfl

theorem mbindErr {e a b : Type} (err : e) (f : a → Except e b) :
    ((Except.error err : Except e a) >>= f) = .error err := rfl

theorem mbind_ok_inv {e a b : Type} (x : Except e a) (f : a → Except e b) (r : b)
    (h : (x >>= f) = .ok r) : ∃ v, x = .ok v ∧ f v = .ok r := by
  cases x with
  | ok v => exact ⟨v, rfl, h⟩
  | error err => rw [mbindErr] at h; cases h

namespace Integration

/-- Result of a `StdResult` computation in `market.rs`: either a genuine
`StdError` return or a panic (abort). -/
inductive MErr where
  | std (msg : String)
  | panic (k : PanicKind)
  deriving DecidableEq

/-- Checked `Uint128` addition (`+=` panics on overflow). -/
def addU128 (a b : Nat) : Except MErr Nat :=
  if a + b < U128 then .ok (a + b) else .error (.panic .addOverflow)

/-- Checked `Uint128` subtraction (`-=` panics on underflow). -/
def subU128 (a b : Nat) : Except MErr Nat :=
  if b ≤ a then .ok (a - b) else .error (.panic .subOverflow)

/-- `Decimal::from_ratio(num, den)`: atomics `num * 10^18 / den` (floor),
panicking on a zero denominator or on overflow past `Uint128`. -/
def fromRatio (num den : Nat) : Except MErr Nat :=
  if den = 0 then .error (.panic .divideByZero)
  else if num * DECIMAL_FRACTIONAL / den < U128 then
    .ok (num * DECIMAL_FRACTIONAL / den)
  else .error (.panic .mulOverflow)

/-- `Uint128 * Decimal` (also `Decimal * Uint128`): floor of the product,
panicking when the result does not fit in `Uint128`. -/
def mulUintDec (u d : Nat) : Except MErr Nat :=
  if u * d / DECIMAL_FRACTIONAL < U128 then .ok (u * d / DECIMAL_FRACTIONAL)
  else .error (.panic .mulOverflow)

inductive PoolSide where
  | SOURCE
  | DESTINATION
  deriving DecidableEq

inductive PoolStatus where
  | PoolStatusInitialized
  | PoolStatusActive
  deriving DecidableEq

structure PoolAsset where
  side : PoolSide
  balance : Coin
  weight : Nat
  decimal : Nat
  deriving DecidableEq

structure InterchainLiquidityPool where
  assets : List PoolAsset
  counterPartyChannel : String
  counterPartyPort : String
  destinationCreator : String
  id : String
  sourceChainId : String
  sourceCreator : String
  status : PoolStatus
  supply : Coin
  swapFee : Nat
  poolPrice : Nat
  deriving DecidableEq

/-- `find_asset_by_denom`: first asset whose balance denom matches. -/
def find_asset_by_denom (p : InterchainLiquidityPool) (denom : String) :
    Except MErr PoolAsset :=
  match p.assets.find? (fun a => a.balance.denom == denom) with
  | some a => .ok a
  | none => .error (.std "Denom not found in pool")

/-- `find_asset_by_side`: first asset on the given side. -/
def find_asset_by_side (p : InterchainLiquidityPool) (side : PoolSide) :
    Except MErr PoolAsset :=
  match p.assets.find? (fun a => a.side == side) with
  | some a => .ok a
  | none => .error (.std "Asset side not found in pool")

/-- The index scan shared by `add_asset` / `subtract_asset`: visit every
asset in order, remembering the index of the last denom match and whether
any match was found (`indx` / `found` in the source). -/
def lastMatchAux (denom : String) : List PoolAsset → Nat → Nat × Bool → Nat × Bool
  | [], _, st => st
  | a :: rest, i, st =>
      lastMatchAux denom rest (i + 1)
        (if a.balance.denom == denom then (i, true) else st)

def lastMatchIndex (assets : List PoolAsset) (denom : String) : Nat × Bool :=
  lastMatchAux denom assets 0 (0, false)

/-- Read `assets[i]` (vector indexing panics when out of bounds). -/
def getAsset (l : List PoolAsset) (i : Nat) : Except MErr PoolAsset :=
  match l.get? i with
  | some a => .ok a
  | none => .error (.panic .idxOOB)

/-- `add_asset`: add `token.amount` onto the matching asset balance
(unchecked `+=`, so overflow panics), returning the input coin. -/
def add_asset (p : InterchainLiquidityPool) (token : Coin) :
    Except MErr (Coin × InterchainLiquidityPool) :=
  let fi := lastMatchIndex p.assets token.denom
  if fi.2 = false then .error (.std "Denom not found in pool")
  else do
    let a ← getAsset p.assets fi.1
    let amt ← addU128 a.balance.amount token.amount
    let a' := { a with balance := { a.balance with amount := amt } }
    .ok (token, { p with assets := p.assets.set fi.1 a' })

/-- `subtract_asset`: subtract `token.amount` from the matching asset balance
(unchecked `-=`, so underflow panics), returning the input coin. -/
def subtract_asset (p : InterchainLiquidityPool) (token : Coin) :
    Except MErr (Coin × InterchainLiquidityPool) :=
  let fi := lastMatchIndex p.assets token.denom
  if fi.2 = false then .error (.std "Denom not found in pool")
  else do
    let a ← getAsset p.assets fi.1
    let amt ← subU128 a.balance.amount token.amount
    let a' := { a with balance := { a.balance with amount := amt } }
    .ok (token, { p with assets := p.assets.set fi.1 a' })

/-- `add_supply`: add onto the supply when the denom matches the supply denom. -/
def add_supply (p : InterchainLiquidityPool) (token : Coin) :
    Except MErr (Coin × InterchainLiquidityPool) :=
  if p.supply.denom == token.denom then do
    let amt ← addU128 p.supply.amount token.amount
    .ok (token, { p with supply := { p.supply with amount := amt } })
  else .error (.std "Denom not found")

/-- `subtract_supply`: subtract from the supply when the denom matches
(unchecked `-=`, so underflow panics). -/
def subtract_supply (p : InterchainLiquidityPool) (token : Coin) :
    Except MErr (Coin × InterchainLiquidityPool) :=
  if p.supply.denom == token.denom then do
    let amt ← subU128 p.supply.amount token.amount
    .ok (token, { p with supply := { p.supply with amount := amt } })
  else .error (.std "Denom not found")

/-- Is the result a genuine `StdError`-style error return (as opposed to a
success or a panic)? -/
def isStdErr {α : Type} : Except MErr α → Bool
  | .error (.std _) => true
  | _ => false

end Integration

namespace Integration

/-- Concrete pool used by the C2 counterexample. -/
def poolC2 : InterchainLiquidityPool :=
  { assets := [{ side := .SOURCE, balance := { denom := "foo", amount := 5 },
                 weight := 50, decimal := 6 }]
    counterPartyChannel := "channel-0"
    counterPartyPort := "wasm.port"
    destinationCreator := "dest"
    id := "pid"
    sourceChainId := "chain-a"
    sourceCreator := "src"
    status := .PoolStatusActive
    supply := { denom := "pid", amount := 10 }
    swapFee := 300
    poolPrice := 0 }

end Integration

namespace Integration

/-- If the accumulator is already `found`, the scan stays `found`. -/
theorem lastMatchAux_found_mono (denom : String) (l : List PoolAsset) :
    ∀ (i : Nat) (st : Nat × Bool), st.2 = true → (lastMatchAux denom l i st).2 = true := by
  induction l with
  | nil => intro i st h; simpa [lastMatchAux] using h
  | cons a rest ih =>
      intro i st h
      simp only [lastMatchAux]
      by_cases hm : a.balance.denom == denom
      · simp [hm]; exact ih (i + 1) (i, true) rfl
      · simp [hm]; exact ih (i + 1) st h

/-- If some asset of the list matches the denom, the scan reports `found`. -/
theorem lastMatchAux_found (denom : String) (l : List PoolAsset) :
    ∀ (i : Nat) (st : Nat × Bool) (a : PoolAsset),
      a ∈ l → a.balance.denom = denom → (lastMatchAux denom l i st).2 = true := by
  induction l with
  | nil => intro i st a hmem; cases hmem
  | cons b rest ih =>
      intro i st a hmem hd
      simp only [lastMatchAux]
      rcases List.mem_cons.mp hmem with h | h
      · subst h
        simp [hd]
        exact lastMatchAux_found_mono denom rest (i + 1) (i, true) rfl
      · by_cases hm : b.balance.denom == denom
        · simp [hm]; exact ih (i + 1) _ a h hd
        · simp [hm]; exact ih (i + 1) st a h hd

/-- A `found` scan result either is the untouched accumulator or points (as an
offset from `i`) at a matching asset of the list. -/
theorem lastMatchAux_spec (denom : String) (l : List PoolAsset) :
    ∀ (i : Nat) (st : Nat × Bool), (lastMatchAux denom l i st).2 = true →
      lastMatchAux denom l i st = st ∨
      ∃ k b, l.get? k = some b ∧ b.balance.denom = denom ∧
        (lastMatchAux denom l i st).1 = i + k := by
  induction l with
  | nil => intro i st _; left; rfl
  | cons a rest ih =>
      intro i st hf
      simp only [lastMatchAux] at hf ⊢
      rcases ih (i + 1) (if a.balance.denom == denom then (i, true) else st) hf
        with heq | ⟨k, b, hget, hbd, hidx⟩
      · by_cases hm : a.balance.denom == denom
        · right
          refine ⟨0, a, rfl, by simpa using hm, ?_⟩
          rw [heq]; simp [hm]
        · left; rw [heq]; simp [hm]
      · right
        exact ⟨k + 1, b, by simpa using hget, hbd, by omega⟩

/-- The index scan with the source's initial accumulator: on success it points
at a matching asset. -/
theorem lastMatchIndex_spec (assets : List PoolAsset) (denom : String)
    (hf : (lastMatchIndex assets denom).2 = true) :
    ∃ b, assets.get? (lastMatchIndex assets denom).1 = some b ∧
      b.balance.denom = denom := by
  rcases lastMatchAux_spec denom assets 0 (0, false) hf with heq | ⟨k, b, hget, hbd, hidx⟩
  · rw [lastMatchIndex] at hf; rw [heq] at hf; cases hf
  · exact ⟨b, by rw [lastMatchIndex, hidx]; simpa using hget, hbd⟩

end Integration

/-- C2, amended.  `subtract_asset` on a coin whose denom matches a pool asset
but whose amount exceeds that asset's balance aborts with an arithmetic
underflow panic (unchecked `-=`), and `subtract_supply` likewise when the
amount exceeds the supply; neither returns an `InsufficientBalance` /
`InsufficientSupply` error value, and no negative amount is ever stored. -/
theorem c2_subtract_unchecked_panics :
    (∀ (p : Integration.InterchainLiquidityPool) (t : Coin) (a : Integration.PoolAsset),
      a ∈ p.assets → a.balance.denom = t.denom →
      (∀ b ∈ p.assets, b.balance.denom = t.denom → b = a) →
      a.balance.amount < t.amount →
      Integration.subtract_asset p t = .error (.panic .subOverflow)) ∧
    (∀ (p : Integration.InterchainLiquidityPool) (t : Coin),
      p.supply.denom = t.denom → p.supply.amount < t.amount →
      Integration.subtract_supply p t = .error (.panic .subOverflow)) := by
  constructor
  · intro p t a hmem hd huniq hlt
    have hf : (Integration.lastMatchIndex p.assets t.denom).2 = true :=
      Integration.lastMatchAux_found t.denom p.assets 0 (0, false) a hmem hd
    obtain ⟨b, hget, hbd⟩ := Integration.lastMatchIndex_spec p.assets t.denom hf
    have hba : b = a := huniq b (List.get?_mem hget) hbd
    subst hba
    have hga : Integration.getAsset p.assets
        (Integration.lastMatchIndex p.assets t.denom).1 = .ok b := by
      unfold Integration.getAsset; rw [hget]
    unfold Integration.subtract_asset
    simp only [hf, Bool.true_eq_false, if_false]
    rw [hga, mbindOk]
    unfold Integration.subU128
    rw [if_neg (Nat.not_le.mpr hlt), mbindErr]
  · intro p t hd hlt
    unfold Integration.subtract_supply
    simp only [hd, beq_self_eq_true, if_true]
    unfold Integration.subU128
    rw [if_neg (Nat.not_le.mpr hlt)]
    rfl

/-- Witness for C2: concrete pool with 5 `foo` and supply 10; subtracting
10 `foo` and 20 supply tokens both panic. -/
theorem c2_subtract_unchecked_panics_witness :
    Integration.subtract_asset Integration.poolC2 ⟨"foo", 10⟩ =
      .error (.panic .subOverflow) ∧
    Integration.subtract_supply Integration.poolC2 ⟨"pid", 20⟩ =
      .error (.panic .subOverflow) :=
  ⟨c2_subtract_unchecked_panics.1 Integration.poolC2 ⟨"foo", 10⟩
      { side := .SOURCE, balance := { denom := "foo", amount := 5 },
        weight := 50, decimal := 6 }
      (by decide) (by decide) (by decide) (by decide),
   c2_subtract_unchecked_panics.2 Integration.poolC2 ⟨"pid", 20⟩
      (by decide) (by decide)⟩

/-- C2 counterexample: at a concrete pool holding 5 `foo` (supply 10),
subtracting 10 `foo` (resp. 20 supply tokens) does not return an error value
at all — it aborts with an arithmetic underflow panic. -/
theorem c2_subtract_panic_counterexample :
    Integration.isStdErr (Integration.subtract_asset Integration.poolC2 ⟨"foo", 10⟩)
      = false ∧
    Integration.subtract_asset Integration.poolC2 ⟨"foo", 10⟩ =
      .error (.panic .subOverflow) ∧
    Integration.isStdErr (Integration.subtract_supply Integration.poolC2 ⟨"pid", 20⟩)
      = false ∧
    Integration.subtract_supply Integration.poolC2 ⟨"pid", 20⟩ =
      .error (.panic .subOverflow) := by
  decide

namespace Integration

/-- Pool after the C10 witness deposit of 7 `foo` onto `poolC2`. -/
def poolC2addW : InterchainLiquidityPool :=
  { poolC2 with assets := [{ side := .SOURCE, balance := { denom := "foo", amount := 12 },
                             weight := 50, decimal := 6 }] }

/-- Pool after the C10 witness withdrawal of 3 `foo` from `poolC2`. -/
def poolC2subW : InterchainLiquidityPool :=
  { poolC2 with assets := [{ side := .SOURCE, balance := { denom := "foo", amount := 2 },
                             weight := 50, decimal := 6 }] }

end Integration

/-- Pool update helper: replace asset `i` by `a` with its balance amount set
to `amt` (all other fields and assets untouched). -/
def setAssetAmount (p : Integration.InterchainLiquidityPool) (i : Nat)
    (a : Integration.PoolAsset) (amt : Nat) : Integration.InterchainLiquidityPool :=
  { p with assets := p.assets.set i { a with balance := { a.balance with amount := amt } } }

/-- Pool update helper: set the supply amount (all other fields untouched). -/
def setSupplyAmount (p : Integration.InterchainLiquidityPool) (amt : Nat) :
    Integration.InterchainLiquidityPool :=
  { p with supply := { p.supply with amount := amt } }

/-- C10: whenever they succeed, `add_asset` / `subtract_asset` return the
input coin and change only the matched asset balance amount (by the coin
amount), and `add_supply` / `subtract_supply` return the input coin and
change only the supply amount; every other asset and every other pool field
is unchanged. -/
theorem c10_frame_conditions :
    (∀ (p : Integration.InterchainLiquidityPool) (t c' : Coin)
        (p' : Integration.InterchainLiquidityPool),
      Integration.add_asset p t = .ok (c', p') →
      c' = t ∧ ∃ i a, p.assets.get? i = some a ∧ a.balance.denom = t.denom ∧
        p' = setAssetAmount p i a (a.balance.amount + t.amount)) ∧
    (∀ (p : Integration.InterchainLiquidityPool) (t c' : Coin)
        (p' : Integration.InterchainLiquidityPool),
      Integration.subtract_asset p t = .ok (c', p') →
      c' = t ∧ ∃ i a, p.assets.get? i = some a ∧ a.balance.denom = t.denom ∧
        p' = setAssetAmount p i a (a.balance.amount - t.amount)) ∧
    (∀ (p : Integration.InterchainLiquidityPool) (t c' : Coin)
        (p' : Integration.InterchainLiquidityPool),
      Integration.add_supply p t = .ok (c', p') →
      c' = t ∧ p.supply.denom = t.denom ∧
        p' = setSupplyAmount p (p.supply.amount + t.amount)) ∧
    (∀ (p : Integration.InterchainLiquidityPool) (t c' : Coin)
        (p' : Integration.InterchainLiquidityPool),
      Integration.subtract_supply p t = .ok (c', p') →
      c' = t ∧ p.supply.denom = t.denom ∧
        p' = setSupplyAmount p (p.supply.amount - t.amount)) := by
  refine ⟨?_, ?_, ?_, ?_⟩
  · intro p t c' p' h
    simp only [Integration.add_asset] at h
    cases hfi : (Integration.lastMatchIndex p.assets t.denom).2
    · rw [hfi] at h; simp at h
    · rw [hfi] at h
      simp only [Bool.true_eq_false, if_false] at h
      obtain ⟨b, hget, hbd⟩ := Integration.lastMatchIndex_spec _ _ hfi
      have hga : Integration.getAsset p.assets
          (Integration.lastMatchIndex p.assets t.denom).1 = .ok b := by
        unfold Integration.getAsset; rw [hget]
      rw [hga, mbindOk] at h
      unfold Integration.addU128 at h
      by_cases hov : b.balance.amount + t.amount < U128
      · rw [if_pos hov, mbindOk] at h
        simp only [Except.ok.injEq, Prod.mk.injEq] at h
        exact ⟨h.1.symm, (Integration.lastMatchIndex p.assets t.denom).1, b,
          hget, hbd, h.2.symm⟩
      · rw [if_neg hov, mbindErr] at h; cases h
  · intro p t c' p' h
    simp only [Integration.subtract_asset] at h
    cases hfi : (Integration.lastMatchIndex p.assets t.denom).2
    · rw [hfi] at h; simp at h
    · rw [hfi] at h
      simp only [Bool.true_eq_false, if_false] at h
      obtain ⟨b, hget, hbd⟩ := Integration.lastMatchIndex_spec _ _ hfi
      have hga : Integration.getAsset p.assets
          (Integration.lastMatchIndex p.assets t.denom).1 = .ok b := by
        unfold Integration.getAsset; rw [hget]
      rw [hga, mbindOk] at h
      unfold Integration.subU128 at h
      by_cases hov : t.amount ≤ b.balance.amount
      · rw [if_pos hov, mbindOk] at h
        simp only [Except.ok.injEq, Prod.mk.injEq] at h
        exact ⟨h.1.symm, (Integration.lastMatchIndex p.assets t.denom).1, b,
          hget, hbd, h.2.symm⟩
      · rw [if_neg hov, mbindErr] at h; cases h
  · intro p t c' p' h
    simp only [Integration.add_supply] at h
    cases hd : p.supply.denom == t.denom
    · rw [hd] at h; simp at h
    · rw [hd] at h
      simp only [if_true] at h
      unfold Integration.addU128 at h
      by_cases hov : p.supply.amount + t.amount < U128
      · rw [if_pos hov, mbindOk] at h
        simp only [Except.ok.injEq, Prod.mk.injEq] at h
        exact ⟨h.1.symm, by simpa using hd, h.2.symm⟩
      · rw [if_neg hov, mbindErr] at h; cases h
  · intro p t c' p' h
    simp only [Integration.subtract_supply] at h
    cases hd : p.supply.denom == t.denom
    · rw [hd] at h; simp at h
    · rw [hd] at h
      simp only [if_true] at h
      unfold Integration.subU128 at h
      by_cases hov : t.amount ≤ p.supply.amount
      · rw [if_pos hov, mbindOk] at h
        simp only [Except.ok.injEq, Prod.mk.injEq] at h
        exact ⟨h.1.symm, by simpa using hd, h.2.symm⟩
      · rw [if_neg hov, mbindErr] at h; cases h

/-- Witness for C10: all four operations evaluated on the concrete `poolC2`. -/
theorem c10_frame_conditions_witness :
    (Integration.add_asset Integration.poolC2 ⟨"foo", 7⟩ =
        .ok (⟨"foo", 7⟩, Integration.poolC2addW) ∧
      (⟨"foo", 7⟩ : Coin) = ⟨"foo", 7⟩ ∧
      ∃ i a, Integration.poolC2.assets.get? i = some a ∧
        a.balance.denom = "foo" ∧
        Integration.poolC2addW = setAssetAmount Integration.poolC2 i a (a.balance.amount + 7)) ∧
    (Integration.subtract_asset Integration.poolC2 ⟨"foo", 3⟩ =
        .ok (⟨"foo", 3⟩, Integration.poolC2subW) ∧
      ∃ i a, Integration.poolC2.assets.get? i = some a ∧
        a.balance.denom = "foo" ∧
        Integration.poolC2subW = setAssetAmount Integration.poolC2 i a (a.balance.amount - 3)) ∧
    (Integration.add_supply Integration.poolC2 ⟨"pid", 4⟩ =
        .ok (⟨"pid", 4⟩, setSupplyAmount Integration.poolC2 14) ∧
      Integration.poolC2.supply.denom = "pid") ∧
    (Integration.subtract_supply Integration.poolC2 ⟨"pid", 4⟩ =
        .ok (⟨"pid", 4⟩, setSupplyAmount Integration.poolC2 6)) :=
  ⟨⟨by decide, (c10_frame_conditions.1 Integration.poolC2 ⟨"foo", 7⟩ ⟨"foo", 7⟩
      Integration.poolC2addW (by decide)).1,
    (c10_frame_conditions.1 Integration.poolC2 ⟨"foo", 7⟩ ⟨"foo", 7⟩
      Integration.poolC2addW (by decide)).2⟩,
   ⟨by decide, (c10_frame_conditions.2.1 Integration.poolC2 ⟨"foo", 3⟩ ⟨"foo", 3⟩
      Integration.poolC2subW (by decide)).2⟩,
   ⟨by decide, (c10_frame_conditions.2.2.1 Integration.poolC2 ⟨"pid", 4⟩ ⟨"pid", 4⟩
      (setSupplyAmount Integration.poolC2 14) (by decide)).2.1⟩,
   by decide⟩

namespace Integration

/-- Number of LP tokens minted on first (bootstrap) liquidity provision. -/
def INIT_LP_TOKENS : Nat := 100

/-- Modelled from the spec: `MULTIPLIER` lives in the `utils` module, which is
absent from `src/`; the spec uses it only as the fixed scale factor of the
bootstrap mint (`INIT_LP_TOKENS * MULTIPLIER`).  Its concrete value does not
matter to any theorem below. -/
def MULTIPLIER : Nat := 10 ^ 18

/-- First loop of `deposit_multi_asset`: for every input token look up the
matching pool asset and form the `Decimal` share ratio
`token.amount / asset.balance.amount`, in input order. -/
def shareRatios (p : InterchainLiquidityPool) : List Coin → Except MErr (List Nat)
  | [] => .ok []
  | t :: ts => do
      let a ← find_asset_by_denom p t.denom
      let r ← fromRatio t.amount a.balance.amount
      let rest ← shareRatios p ts
      .ok (r :: rest)

/-- Second loop of `deposit_multi_asset` (the remainder computation): for every
token (paired with its share ratio), the used amount is
`min_share * asset.balance` (floored), always recorded in `added`; tokens whose
ratio exceeds the minimum leave their nonzero surplus in `rem`. -/
def remLoop (p : InterchainLiquidityPool) (minShare : Nat) :
    List (Coin × Nat) → Except MErr (List Coin × List Coin)
  | [] => .ok ([], [])
  | (t, share) :: rest => do
      let a ← find_asset_by_denom p t.denom
      let used ← mulUintDec a.balance.amount minShare
      let newAmount ← subU128 t.amount used
      let tail ← remLoop p minShare rest
      let added := Coin.mk t.denom used :: tail.1
      if share = minShare then .ok (added, tail.2)
      else if newAmount ≠ 0 then .ok (added, Coin.mk t.denom newAmount :: tail.2)
      else .ok (added, tail.2)

/-- `deposit_multi_asset` (MaximalExactRatioJoin): on a bootstrap pool
(`Initialized` with zero supply) mint the fixed initial amount and accept the
tokens as-is; otherwise compute all share ratios, take the minimum as the
binding ratio, mint `min_share * total_supply`, and when the ratios differ
return the per-token surpluses as remainders. -/
def deposit_multi_asset (p : InterchainLiquidityPool) (tokens : List Coin) :
    Except MErr (Nat × List Coin × List Coin) :=
  if p.status = .PoolStatusInitialized ∧ p.supply.amount = 0 then
    .ok (INIT_LP_TOKENS * MULTIPLIER, tokens, [])
  else do
    let ratios ← shareRatios p tokens
    let minShare := ratios.foldl min DECIMAL_MAX
    let maxShare := ratios.foldl max 0
    let newShares ← mulUintDec p.supply.amount minShare
    if minShare ≠ maxShare then do
      let pair ← remLoop p minShare (tokens.zip ratios)
      if pair.2.isEmpty then .ok (newShares, tokens, pair.2)
      else .ok (newShares, pair.1, pair.2)
    else .ok (newShares, tokens, [])

/-- Per-asset loop of `multi_asset_withdraw`: owed amount is
`balance * share_out_ratio` (floored); error if it would exceed the balance. -/
def withdrawLoop (ratio : Nat) : List PoolAsset → Except MErr (List Coin)
  | [] => .ok []
  | a :: rest => do
      let out ← mulUintDec a.balance.amount ratio
      if out > a.balance.amount then .error (.std "Invalid asset out")
      else do
        let tail ← withdrawLoop ratio rest
        .ok (Coin.mk a.balance.denom out :: tail)

/-- `multi_asset_withdraw`: share-out ratio is `redeem.amount / total_supply`
(a `Decimal`, so the division panics when the supply is zero), then each asset
owes `balance * ratio`. -/
def multi_asset_withdraw (p : InterchainLiquidityPool) (redeem : Coin) :
    Except MErr (List Coin) := do
  let ratio ← fromRatio redeem.amount p.supply.amount
  withdrawLoop ratio p.assets

end Integration

namespace Integration

/-- Concrete non-bootstrap pool for C5: 3 `foo`, 1 `bar`, supply 100, active. -/
def poolC5 : InterchainLiquidityPool :=
  { poolC2 with
    assets := [{ side := .SOURCE, balance := { denom := "foo", amount := 3 },
                 weight := 50, decimal := 6 },
               { side := .DESTINATION, balance := { denom := "bar", amount := 1 },
                 weight := 50, decimal := 6 }]
    supply := { denom := "p5", amount := 100 } }

/-- Concrete pool for the C8 spec example: 200 `foo`, 300 `bar`, supply 2. -/
def poolC8ex : InterchainLiquidityPool :=
  { poolC2 with
    assets := [{ side := .SOURCE, balance := { denom := "foo", amount := 200 },
                 weight := 50, decimal := 6 },
               { side := .DESTINATION, balance := { denom := "bar", amount := 300 },
                 weight := 50, decimal := 6 }]
    supply := { denom := "pw", amount := 2 } }

/-- Concrete pool for the C8 counterexample: 3 `foo`, supply 3. -/
def poolC8cex : InterchainLiquidityPool :=
  { poolC2 with
    assets := [{ side := .SOURCE, balance := { denom := "foo", amount := 3 },
                 weight := 50, decimal := 6 }]
    supply := { denom := "pw", amount := 3 } }

/-- Concrete pool for the C9 witness: active, with a zero `foo` balance. -/
def poolC9 : InterchainLiquidityPool :=
  { poolC2 with
    assets := [{ side := .SOURCE, balance := { denom := "foo", amount := 0 },
                 weight := 50, decimal := 6 }]
    supply := { denom := "p9", amount := 7 } }

/-- Concrete pool for the C9 witness: active with zero total supply. -/
def poolC9sup : InterchainLiquidityPool :=
  { poolC2 with supply := { denom := "p9", amount := 0 } }

end Integration

/-- C5 counterexample: on the non-bootstrap pool `{3 foo, 1 bar}` (supply 100)
with inputs `1 foo, 1 bar`, exactly `bar`'s ratio exceeds `foo`'s and the
remainder is `[1 bar]`, but for `foo` the accepted amount is
`floor(minRatio * 3) = 0` with no remainder entry, so accepted + remainder
(`0 + 0`) differs from the original input amount `1`. -/
theorem c5_truncation_counterexample :
    Integration.deposit_multi_asset Integration.poolC5 [⟨"foo", 1⟩, ⟨"bar", 1⟩] =
      .ok (33, [⟨"foo", 0⟩, ⟨"bar", 0⟩], [⟨"bar", 1⟩]) ∧
    0 + 0 ≠ 1 := by
  decide

/-- C8 counterexample: on the pool `{3 foo}` with supply 3, redeeming 1 share
yields `0 foo`, while the claimed formula `balance * (R / S)` rounded down is
`3 * 1 / 3 = 1`: the code floors the ratio to 18 decimals before multiplying. -/
theorem c8_exact_ratio_counterexample :
    Integration.multi_asset_withdraw Integration.poolC8cex ⟨"pw", 1⟩ =
      .ok [⟨"foo", 0⟩] ∧
    3 * 1 / 3 = 1 ∧ (1 : Nat) ≠ 0 := by
  decide

namespace Integration

/-- If every token before position `k` has a matched asset with a nonzero
balance (and its ratio fits in a `Decimal`), while the token at position `k`
matches an asset with a zero balance, the share-ratio loop aborts with a
division-by-zero panic. -/
theorem shareRatios_div_zero (p : InterchainLiquidityPool) (tok : Coin)
    (rest : List Coin) (a : PoolAsset)
    (hfind : find_asset_by_denom p tok.denom = .ok a)
    (hz : a.balance.amount = 0) :
    ∀ (pre : List Coin),
      (∀ t ∈ pre, ∃ b, find_asset_by_denom p t.denom = .ok b ∧
        b.balance.amount ≠ 0 ∧ t.amount * DECIMAL_FRACTIONAL / b.balance.amount < U128) →
      shareRatios p (pre ++ tok :: rest) = .error (.panic .divideByZero) := by
  intro pre
  induction pre with
  | nil =>
      intro _
      simp only [List.nil_append, shareRatios]
      rw [hfind, mbindOk, hz]
      unfold fromRatio
      rw [if_pos rfl, mbindErr]
  | cons t pre ih =>
      intro hpre
      obtain ⟨b, hfb, hbnz, hbound⟩ := hpre t (List.mem_cons_self t pre)
      have htail := ih (fun u hu => hpre u (List.mem_cons_of_mem t hu))
      simp only [List.cons_append, shareRatios]
      rw [hfb, mbindOk]
      unfold fromRatio
      rw [if_neg hbnz, if_pos hbound, mbindOk, List.append_eq, htail, mbindErr]

end Integration

/-- C9: the proportional (non-bootstrap) regime of `deposit_multi_asset`
divides by each matched asset balance and `multi_asset_withdraw` divides by
the total supply, with no guarded error branch: a zero denominator aborts
with a division-by-zero panic rather than being returned as an error. -/
theorem c9_zero_denominator_panics :
    (∀ (p : Integration.InterchainLiquidityPool) (pre : List Coin) (tok : Coin)
        (rest : List Coin) (a : Integration.PoolAsset),
      ¬(p.status = .PoolStatusInitialized ∧ p.supply.amount = 0) →
      (∀ t ∈ pre, ∃ b, Integration.find_asset_by_denom p t.denom = .ok b ∧
        b.balance.amount ≠ 0 ∧
        t.amount * DECIMAL_FRACTIONAL / b.balance.amount < U128) →
      Integration.find_asset_by_denom p tok.denom = .ok a →
      a.balance.amount = 0 →
      Integration.deposit_multi_asset p (pre ++ tok :: rest) =
        .error (.panic .divideByZero)) ∧
    (∀ (p : Integration.InterchainLiquidityPool) (redeem : Coin),
      p.supply.amount = 0 →
      Integration.multi_asset_withdraw p redeem = .error (.panic .divideByZero)) := by
  constructor
  · intro p pre tok rest a hnb hpre hfind hz
    have hsr := Integration.shareRatios_div_zero p tok rest a hfind hz pre hpre
    unfold Integration.deposit_multi_asset
    rw [if_neg hnb, hsr, mbindErr]
  · intro p redeem hsup
    unfold Integration.multi_asset_withdraw
    rw [hsup]
    unfold Integration.fromRatio
    rw [if_pos rfl, mbindErr]

/-- Witness for C9: the zero-balance pool `poolC9` and the zero-supply pool
`poolC9sup` both abort with a division-by-zero panic. -/
theorem c9_zero_denominator_panics_witness :
    Integration.deposit_multi_asset Integration.poolC9 [⟨"foo", 5⟩] =
      .error (.panic .divideByZero) ∧
    Integration.multi_asset_withdraw Integration.poolC9sup ⟨"p9", 4⟩ =
      .error (.panic .divideByZero) :=
  ⟨c9_zero_denominator_panics.1 Integration.poolC9 [] ⟨"foo", 5⟩ []
      { side := .SOURCE, balance := { denom := "foo", amount := 0 },
        weight := 50, decimal := 6 }
      (by decide) (by intro t ht; cases ht) (by decide) rfl,
   c9_zero_denominator_panics.2 Integration.poolC9sup ⟨"p9", 4⟩ rfl⟩

namespace Integration

/-- The 18-decimal-truncated share-out ratio `redeem.amount / total_supply`
computed by `multi_asset_withdraw` (in atomics). -/
def shareOutRatio (p : InterchainLiquidityPool) (redeem : Coin) : Nat :=
  redeem.amount * DECIMAL_FRACTIONAL / p.supply.amount

/-- The amount `multi_asset_withdraw` owes for one asset:
`balance * ratio` floored back from atomics. -/
def owedAmount (r : Nat) (a : PoolAsset) : Nat :=
  a.balance.amount * r / DECIMAL_FRACTIONAL

theorem withdrawLoop_ok (r : Nat) : ∀ (as : List PoolAsset),
    (∀ a ∈ as, owedAmount r a < U128) →
    (∀ a ∈ as, owedAmount r a ≤ a.balance.amount) →
    withdrawLoop r as =
      .ok (as.map (fun a => Coin.mk a.balance.denom (owedAmount r a))) := by
  intro as
  induction as with
  | nil => intro _ _; rfl
  | cons a rest ih =>
      intro hbound hle
      have hb := hbound a (List.mem_cons_self a rest)
      have hl := hle a (List.mem_cons_self a rest)
      unfold owedAmount at hb hl
      simp only [withdrawLoop]
      unfold mulUintDec
      rw [if_pos hb, mbindOk, if_neg (Nat.not_lt.mpr hl)]
      rw [ih (fun x hx => hbound x (List.mem_cons_of_mem a hx))
          (fun x hx => hle x (List.mem_cons_of_mem a hx)), mbindOk]
      rfl

theorem withdrawLoop_err (r : Nat) : ∀ (as : List PoolAsset),
    (∀ a ∈ as, owedAmount r a < U128) →
    (∃ a ∈ as, a.balance.amount < owedAmount r a) →
    withdrawLoop r as = .error (.std "Invalid asset out") := by
  intro as
  induction as with
  | nil => rintro _ ⟨a, ha, _⟩; cases ha
  | cons a rest ih =>
      rintro hbound ⟨x, hx, hxlt⟩
      have hb := hbound a (List.mem_cons_self a rest)
      unfold owedAmount at hb
      simp only [withdrawLoop]
      unfold mulUintDec
      rw [if_pos hb, mbindOk]
      by_cases hhead : a.balance.amount < a.balance.amount * r / DECIMAL_FRACTIONAL
      · rw [if_pos hhead]
      · rw [if_neg hhead]
        rcases List.mem_cons.mp hx with heq | hmem
        · subst heq; exact absurd hxlt hhead
        · rw [ih (fun y hy => hbound y (List.mem_cons_of_mem a hy)) ⟨x, hmem, hxlt⟩,
            mbindErr]

end Integration

/-- C8, amended.  For a pool with positive total supply `S` and a redeem coin
of amount `R` (with the intermediate products in `Uint128` range),
`multi_asset_withdraw` returns for every pool asset the amount
`floor(balance * floor(R * 10^18 / S) / 10^18)` — the ratio is truncated to 18
decimals before the multiplication, so this can be one less than
`floor(balance * R / S)` — and fails with the invalid-withdraw-amount error
when some computed amount would exceed its balance. -/
theorem c8_withdraw_formula_amended :
    ∀ (p : Integration.InterchainLiquidityPool) (redeem : Coin),
      0 < p.supply.amount →
      redeem.amount * DECIMAL_FRACTIONAL / p.supply.amount < U128 →
      (∀ a ∈ p.assets, Integration.owedAmount (Integration.shareOutRatio p redeem) a < U128) →
      ((∀ a ∈ p.assets,
          Integration.owedAmount (Integration.shareOutRatio p redeem) a ≤ a.balance.amount) →
        Integration.multi_asset_withdraw p redeem =
          .ok (p.assets.map (fun a => Coin.mk a.balance.denom
            (Integration.owedAmount (Integration.shareOutRatio p redeem) a)))) ∧
      ((∃ a ∈ p.assets, a.balance.amount <
          Integration.owedAmount (Integration.shareOutRatio p redeem) a) →
        Integration.multi_asset_withdraw p redeem = .error (.std "Invalid asset out")) := by
  intro p redeem hS hrb hov
  have hfr : Integration.fromRatio redeem.amount p.supply.amount =
      .ok (Integration.shareOutRatio p redeem) := by
    unfold Integration.fromRatio Integration.shareOutRatio
    rw [if_neg (Nat.pos_iff_ne_zero.mp hS), if_pos hrb]
  constructor
  · intro hle
    unfold Integration.multi_asset_withdraw
    rw [hfr, mbindOk]
    exact Integration.withdrawLoop_ok _ _ hov hle
  · intro hex
    unfold Integration.multi_asset_withdraw
    rw [hfr, mbindOk]
    exact Integration.withdrawLoop_err _ _ hov hex

/-- Witness for C8, which is exactly the spec example: redeeming half the
supply of the pool `{200 foo, 300 bar}` (supply 2, redeem 1) returns
`{100 foo, 150 bar}`. -/
theorem c8_withdraw_formula_amended_witness :
    Integration.multi_asset_withdraw Integration.poolC8ex ⟨"pw", 1⟩ =
      .ok [⟨"foo", 100⟩, ⟨"bar", 150⟩] :=
  ((c8_withdraw_formula_amended Integration.poolC8ex ⟨"pw", 1⟩
      (by decide) (by decide) (by decide)).1 (by decide)).trans (by decide)

namespace Integration

theorem fromRatio_inv {num den r : Nat} (h : fromRatio num den = .ok r) :
    den ≠ 0 ∧ r = num * DECIMAL_FRACTIONAL / den ∧ r < U128 := by
  unfold fromRatio at h
  by_cases hd : den = 0
  · rw [if_pos hd] at h; cases h
  · rw [if_neg hd] at h
    by_cases hb : num * DECIMAL_FRACTIONAL / den < U128
    · rw [if_pos hb] at h; cases h; exact ⟨hd, rfl, hb⟩
    · rw [if_neg hb] at h; cases h

theorem mulUintDec_ok {u d : Nat} (h : u * d / DECIMAL_FRACTIONAL < U128) :
    mulUintDec u d = .ok (u * d / DECIMAL_FRACTIONAL) := by
  unfold mulUintDec; rw [if_pos h]

theorem subU128_ok {a b : Nat} (h : b ≤ a) : subU128 a b = .ok (a - b) := by
  unfold subU128; rw [if_pos h]

theorem decfrac_pos : 0 < DECIMAL_FRACTIONAL := by
  unfold DECIMAL_FRACTIONAL; positivity

/-- Re-multiplying a truncated ratio by its own balance never exceeds the
token amount: `b * (t * 10^18 / b) / 10^18 ≤ t`. -/
theorem floor_mul_ratio_le (b t : Nat) :
    b * (t * DECIMAL_FRACTIONAL / b) / DECIMAL_FRACTIONAL ≤ t := by
  have h2 : b * (t * DECIMAL_FRACTIONAL / b) ≤ t * DECIMAL_FRACTIONAL := by
    rw [Nat.mul_comm]
    exact Nat.div_mul_le_self _ _
  calc b * (t * DECIMAL_FRACTIONAL / b) / DECIMAL_FRACTIONAL
      ≤ t * DECIMAL_FRACTIONAL / DECIMAL_FRACTIONAL := Nat.div_le_div_right h2
    _ = t := Nat.mul_div_cancel t decfrac_pos

/-- A strictly smaller ratio applied to a balance stays strictly below the
token amount that produced the larger ratio. -/
theorem floor_mul_lt {b t rmin : Nat} (hb : 0 < b)
    (hlt : rmin < t * DECIMAL_FRACTIONAL / b) :
    b * rmin / DECIMAL_FRACTIONAL < t := by
  rw [Nat.div_lt_iff_lt_mul decfrac_pos]
  have h1 : b * (rmin + 1) ≤ b * (t * DECIMAL_FRACTIONAL / b) :=
    Nat.mul_le_mul_left b hlt
  have h2 : b * (t * DECIMAL_FRACTIONAL / b) ≤ t * DECIMAL_FRACTIONAL := by
    rw [Nat.mul_comm]
    exact Nat.div_mul_le_self _ _
  have h3 : b * (rmin + 1) = b * rmin + b := Nat.mul_succ b rmin
  omega

end Integration

/-- C5, amended.  On a non-bootstrap pool with two input tokens whose share
ratios differ, `deposit_multi_asset` returns a remainder entry for exactly the
token with the larger ratio, and for that token accepted + remainder equals
its input amount; for the minimum-ratio token the accepted amount is
`floor(min_ratio * balance)` with no remainder entry (which can be less than
its input amount because the ratio was truncated to 18 decimals). -/
theorem c5_remainder_partition_amended :
    ∀ (p : Integration.InterchainLiquidityPool) (t0 t1 : Coin)
      (a0 a1 : Integration.PoolAsset) (r0 r1 s : Nat),
      ¬(p.status = .PoolStatusInitialized ∧ p.supply.amount = 0) →
      Integration.find_asset_by_denom p t0.denom = .ok a0 →
      Integration.find_asset_by_denom p t1.denom = .ok a1 →
      Integration.fromRatio t0.amount a0.balance.amount = .ok r0 →
      Integration.fromRatio t1.amount a1.balance.amount = .ok r1 →
      Integration.mulUintDec p.supply.amount (min r0 r1) = .ok s →
      t0.amount < U128 → t1.amount < U128 →
      (r0 < r1 →
        Integration.deposit_multi_asset p [t0, t1] =
          .ok (s, [⟨t0.denom, Integration.owedAmount r0 a0⟩,
                   ⟨t1.denom, Integration.owedAmount r0 a1⟩],
                  [⟨t1.denom, t1.amount - Integration.owedAmount r0 a1⟩]) ∧
        Integration.owedAmount r0 a1 + (t1.amount - Integration.owedAmount r0 a1) =
          t1.amount ∧
        t1.amount - Integration.owedAmount r0 a1 ≠ 0) ∧
      (r1 < r0 →
        Integration.deposit_multi_asset p [t0, t1] =
          .ok (s, [⟨t0.denom, Integration.owedAmount r1 a0⟩,
                   ⟨t1.denom, Integration.owedAmount r1 a1⟩],
                  [⟨t0.denom, t0.amount - Integration.owedAmount r1 a0⟩]) ∧
        Integration.owedAmount r1 a0 + (t0.amount - Integration.owedAmount r1 a0) =
          t0.amount ∧
        t0.amount - Integration.owedAmount r1 a0 ≠ 0) := by
  intro p t0 t1 a0 a1 r0 r1 s hnb h0 h1 hr0 hr1 hs hb0 hb1
  obtain ⟨h0nz, hr0v, hr0lt⟩ := Integration.fromRatio_inv hr0
  obtain ⟨h1nz, hr1v, hr1lt⟩ := Integration.fromRatio_inv hr1
  have hr0dm : r0 ≤ DECIMAL_MAX := by unfold DECIMAL_MAX; unfold U128 at hr0lt; omega
  have hsr : Integration.shareRatios p [t0, t1] = .ok [r0, r1] := by
    simp only [Integration.shareRatios]
    rw [h0, mbindOk, hr0, mbindOk, h1, mbindOk, hr1, mbindOk, mbindOk, mbindOk]
  constructor
  · intro hlt
    simp only [Integration.owedAmount]
    rw [min_eq_left hlt.le] at hs
    have hminfold : [r0, r1].foldl min DECIMAL_MAX = r0 := by
      simp only [List.foldl]
      rw [min_eq_right hr0dm, min_eq_left hlt.le]
    have hmaxfold : [r0, r1].foldl max 0 = r1 := by
      simp only [List.foldl]
      rw [max_eq_right (Nat.zero_le r0), max_eq_right hlt.le]
    have hle0 : a0.balance.amount * r0 / DECIMAL_FRACTIONAL ≤ t0.amount := by
      rw [hr0v]; exact Integration.floor_mul_ratio_le _ _
    have hlt1 : a1.balance.amount * r0 / DECIMAL_FRACTIONAL < t1.amount :=
      Integration.floor_mul_lt (Nat.pos_of_ne_zero h1nz) (hr1v ▸ hlt)
    have hu0 : a0.balance.amount * r0 / DECIMAL_FRACTIONAL < U128 :=
      lt_of_le_of_lt hle0 hb0
    have hu1 : a1.balance.amount * r0 / DECIMAL_FRACTIONAL < U128 :=
      lt_of_le_of_lt (le_of_lt hlt1) hb1
    have hrem : Integration.remLoop p r0 [(t0, r0), (t1, r1)] =
        .ok ([⟨t0.denom, a0.balance.amount * r0 / DECIMAL_FRACTIONAL⟩,
              ⟨t1.denom, a1.balance.amount * r0 / DECIMAL_FRACTIONAL⟩],
             [⟨t1.denom, t1.amount - a1.balance.amount * r0 / DECIMAL_FRACTIONAL⟩]) := by
      simp only [Integration.remLoop]
      rw [h0, mbindOk, Integration.mulUintDec_ok hu0, mbindOk,
        Integration.subU128_ok hle0, mbindOk,
        h1, mbindOk, Integration.mulUintDec_ok hu1, mbindOk,
        Integration.subU128_ok (le_of_lt hlt1), mbindOk, mbindOk]
      have hne1 : t1.amount - a1.balance.amount * r0 / DECIMAL_FRACTIONAL ≠ 0 := by
        omega
      simp [mbindOk, hlt.ne', hne1]
    refine ⟨?_, by omega, by omega⟩
    simp only [Integration.deposit_multi_asset]
    rw [if_neg hnb, hsr, mbindOk]
    rw [show List.zip [t0, t1] [r0, r1] = [(t0, r0), (t1, r1)] from rfl]
    rw [hminfold, hmaxfold, hs, mbindOk, if_pos (show r0 ≠ r1 from hlt.ne),
      hrem, mbindOk]
    simp
  · intro hlt
    simp only [Integration.owedAmount]
    rw [min_eq_right hlt.le] at hs
    have hminfold : [r0, r1].foldl min DECIMAL_MAX = r1 := by
      simp only [List.foldl]
      rw [min_eq_right hr0dm, min_eq_right hlt.le]
    have hmaxfold : [r0, r1].foldl max 0 = r0 := by
      simp only [List.foldl]
      rw [max_eq_right (Nat.zero_le r0), max_eq_left hlt.le]
    have hle1 : a1.balance.amount * r1 / DECIMAL_FRACTIONAL ≤ t1.amount := by
      rw [hr1v]; exact Integration.floor_mul_ratio_le _ _
    have hlt0 : a0.balance.amount * r1 / DECIMAL_FRACTIONAL < t0.amount :=
      Integration.floor_mul_lt (Nat.pos_of_ne_zero h0nz) (hr0v ▸ hlt)
    have hu1 : a1.balance.amount * r1 / DECIMAL_FRACTIONAL < U128 :=
      lt_of_le_of_lt hle1 hb1
    have hu0 : a0.balance.amount * r1 / DECIMAL_FRACTIONAL < U128 :=
      lt_of_le_of_lt (le_of_lt hlt0) hb0
    have hrem : Integration.remLoop p r1 [(t0, r0), (t1, r1)] =
        .ok ([⟨t0.denom, a0.balance.amount * r1 / DECIMAL_FRACTIONAL⟩,
              ⟨t1.denom, a1.balance.amount * r1 / DECIMAL_FRACTIONAL⟩],
             [⟨t0.denom, t0.amount - a0.balance.amount * r1 / DECIMAL_FRACTIONAL⟩]) := by
      simp only [Integration.remLoop]
      rw [h0, mbindOk, Integration.mulUintDec_ok hu0, mbindOk,
        Integration.subU128_ok (le_of_lt hlt0), mbindOk,
        h1, mbindOk, Integration.mulUintDec_ok hu1, mbindOk,
        Integration.subU128_ok hle1, mbindOk, mbindOk]
      have hne0 : t0.amount - a0.balance.amount * r1 / DECIMAL_FRACTIONAL ≠ 0 := by
        omega
      simp [mbindOk, hlt.ne', hne0]
    refine ⟨?_, by omega, by omega⟩
    simp only [Integration.deposit_multi_asset]
    rw [if_neg hnb, hsr, mbindOk]
    rw [show List.zip [t0, t1] [r0, r1] = [(t0, r0), (t1, r1)] from rfl]
    rw [hminfold, hmaxfold, hs, mbindOk, if_pos (show r1 ≠ r0 from hlt.ne),
      hrem, mbindOk]
    simp

namespace Integration

/-- Concrete pool for the C5 witness: 2 `foo`, 1 `bar`, supply 100, active. -/
def poolC5w : InterchainLiquidityPool :=
  { poolC2 with
    assets := [{ side := .SOURCE, balance := { denom := "foo", amount := 2 },
                 weight := 50, decimal := 6 },
               { side := .DESTINATION, balance := { denom := "bar", amount := 1 },
                 weight := 50, decimal := 6 }]
    supply := { denom := "p5w", amount := 100 } }

end Integration

/-- Witness for C5: on `poolC5w` with inputs `1 foo, 1 bar` (ratios 1/2 < 1/1),
the deposit accepts `1 foo` and `0 bar`, returns `1 bar` as the remainder, and
mints 50 shares. -/
theorem c5_remainder_partition_amended_witness :
    Integration.deposit_multi_asset Integration.poolC5w [⟨"foo", 1⟩, ⟨"bar", 1⟩] =
      .ok (50, [⟨"foo", 1⟩, ⟨"bar", 0⟩], [⟨"bar", 1⟩]) :=
  ((c5_remainder_partition_amended Integration.poolC5w ⟨"foo", 1⟩ ⟨"bar", 1⟩
      { side := .SOURCE, balance := { denom := "foo", amount := 2 },
        weight := 50, decimal := 6 }
      { side := .DESTINATION, balance := { denom := "bar", amount := 1 },
        weight := 50, decimal := 6 }
      500000000000000000 1000000000000000000 50
      (by decide) (by decide) (by decide) (by decide) (by decide) (by decide)
      (by decide) (by decide)).1 (by decide)).1.trans (by decide)

namespace Ics101

/-- `ContractError` (plus `StdError` wrapping and panics) of the ics101
contract, restricted to the variants the embedded handlers construct. -/
inductive CErr where
  | std (msg : String)
  | invalidStatus
  | invalidSender
  | notReadyForSwap
  | errOrderNotFound
  | errOrderAlreadyCompleted
  | errFailedMultiAssetDeposit
  | failedOnSwapReceived (err : String)
  | panic (k : PanicKind)
  deriving DecidableEq

/-- Checked `Uint128` addition. -/
def addCk (a b : Nat) : Except CErr Nat :=
  if a + b < U128 then .ok (a + b) else .error (.panic .addOverflow)

/-- Checked subtraction (`u64` / `Uint128` both panic on underflow). -/
def subCk (a b : Nat) : Except CErr Nat :=
  if b ≤ a then .ok (a - b) else .error (.panic .subOverflow)

/-- Checked `Uint128` multiplication. -/
def mulCk (a b : Nat) : Except CErr Nat :=
  if a * b < U128 then .ok (a * b) else .error (.panic .mulOverflow)

/-- Vector indexing (panics when out of bounds). -/
def vecIdx {α : Type} (l : List α) (i : Nat) : Except CErr α :=
  match l.get? i with
  | some x => .ok x
  | none => .error (.panic .idxOOB)

/-- `Option::unwrap` (panics on `None`). -/
def unwrapOpt {α : Type} (o : Option α) : Except CErr α :=
  match o with
  | some x => .ok x
  | none => .error (.panic .unwrapNone)

inductive PoolSide where
  | SOURCE
  | DESTINATION
  deriving DecidableEq

/-- The ics101 pool status (`Initialized` / `Active` / `Cancelled`). -/
inductive PoolStatus where
  | Initialized
  | Active
  | Cancelled
  deriving DecidableEq

structure PoolAsset where
  side : PoolSide
  balance : Coin
  weight : Nat
  decimal : Nat
  deriving DecidableEq

structure InterchainLiquidityPool where
  assets : List PoolAsset
  counterPartyChannel : String
  counterPartyPort : String
  destinationCreator : String
  id : String
  sourceChainId : String
  destinationChainId : String
  sourceCreator : String
  status : PoolStatus
  supply : Coin
  swapFee : Nat
  poolPrice : Nat
  deriving DecidableEq

inductive OrderStatus where
  | Pending
  | Complete
  | Cancelled
  deriving DecidableEq

structure MultiAssetDepositOrder where
  id : String
  chainId : String
  poolId : String
  sourceMaker : String
  destinationTaker : String
  deposits : List Coin
  status : OrderStatus
  createdAt : Nat
  deriving DecidableEq

structure Config where
  counter : Nat
  tokenCodeId : Nat
  deriving DecidableEq

/-- The persisted contract state: the `POOLS`, `MULTI_ASSET_DEPOSIT_ORDERS`,
`ACTIVE_ORDERS` and `POOL_TOKENS_LIST` maps (as association lists keyed by
their storage keys) and the `CONFIG` item. -/
structure ContractState where
  pools : List (String × InterchainLiquidityPool)
  orders : List (String × MultiAssetDepositOrder)
  activeOrders : List (String × MultiAssetDepositOrder)
  poolTokensList : List (String × String)
  config : Config
  deriving DecidableEq

/-- `Map::may_load`. -/
def mapGet {α : Type} (m : List (String × α)) (k : String) : Option α :=
  (m.find? (fun e => e.1 == k)).map (fun e => e.2)

/-- `Map::save` (replace any existing entry for the key). -/
def mapSet {α : Type} (m : List (String × α)) (k : String) (v : α) :
    List (String × α) :=
  (k, v) :: m.filter (fun e => !(e.1 == k))

/-- `Map::remove`. -/
def mapRemove {α : Type} (m : List (String × α)) (k : String) :
    List (String × α) :=
  m.filter (fun e => !(e.1 == k))

/-- `MessageInfo`: sender plus attached funds. -/
structure MessageInfo where
  sender : String
  funds : List Coin
  deriving DecidableEq

/-- One deposit entry of a make-multi-asset-deposit request. -/
structure DepositAsset where
  sender : String
  balance : Coin
  deriving DecidableEq

structure MsgMakeMultiAssetDepositRequest where
  poolId : String
  chainId : String
  deposits : List DepositAsset
  deriving DecidableEq

structure MsgTakeMultiAssetDepositRequest where
  sender : String
  poolId : String
  orderId : String
  deriving DecidableEq

structure MsgCancelPoolRequest where
  poolId : String
  deriving DecidableEq

inductive SwapMsgType where
  | LEFT
  | RIGHT
  deriving DecidableEq

structure MsgSwapRequest where
  swapType : SwapMsgType
  sender : String
  poolId : String
  tokenIn : Coin
  tokenOut : Coin
  slippage : Nat
  recipient : String
  deriving DecidableEq

/-- The nine packet kinds of `SwapMessageType`. -/
inductive SwapMessageType where
  | Unspecified
  | MakePool
  | TakePool
  | CancelPool
  | SingleAssetDeposit
  | MakeMultiDeposit
  | TakeMultiDeposit
  | CancelMultiDeposit
  | MultiWithdraw
  | LeftSwap
  | RightSwap
  deriving DecidableEq

/-- The `StateChange` fields the embedded handlers read. -/
structure StateChange where
  poolTokens : List (Option Coin)
  multiDepositOrderId : Option String
  deriving DecidableEq

/-- An outbound IBC packet as far as the claims need it: the channel it is
sent on and the message type it carries. -/
structure IbcPacketOut where
  channelId : String
  msgType : SwapMessageType
  deriving DecidableEq

/-- Result of an execute-side handler: the new state plus the packet handed
to the relay boundary (if any). -/
structure ExecResult where
  state : ContractState
  packet : Option IbcPacketOut
  deriving DecidableEq

/-- Result of a receive/ack/refund-side handler: the new state plus the mint
and send submessages it attaches. -/
structure RecvResult where
  state : ContractState
  mints : List (String × String × Nat)
  sends : List (String × Coin)
  deriving DecidableEq

end Ics101

namespace Ics101

def MAXIMUM_SLIPPAGE : Nat := 10000

/-- `find_asset_by_side` of the ics101 `market` module (absent from `src/`;
mirrored from the identical function in
`src/101-integration/contracts/src/market.rs`). -/
def find_asset_by_side (p : InterchainLiquidityPool) (side : PoolSide) :
    Except CErr PoolAsset :=
  match p.assets.find? (fun a => a.side == side) with
  | some a => .ok a
  | none => .error (.std "Asset side not found in pool")

/-- Index scan of `add_asset` (last denom match wins), mirrored from
`src/101-integration/contracts/src/market.rs`. -/
def lastMatchAux (denom : String) :
    List PoolAsset → Nat → Nat × Bool → Nat × Bool
  | [], _, st => st
  | a :: rest, i, st =>
      lastMatchAux denom rest (i + 1)
        (if a.balance.denom == denom then (i, true) else st)

def lastMatchIndex (assets : List PoolAsset) (denom : String) : Nat × Bool :=
  lastMatchAux denom assets 0 (0, false)

def getAsset (l : List PoolAsset) (i : Nat) : Except CErr PoolAsset :=
  match l.get? i with
  | some a => .ok a
  | none => .error (.panic .idxOOB)

/-- `add_asset` of the ics101 `market` module (absent from `src/`; mirrored
from the identical function in `src/101-integration/contracts/src/market.rs`):
unchecked `+=` on the matching asset balance. -/
def add_asset (p : InterchainLiquidityPool) (token : Coin) :
    Except CErr (Coin × InterchainLiquidityPool) :=
  let fi := lastMatchIndex p.assets token.denom
  if fi.2 = false then .error (.std "Denom not found in pool")
  else do
    let a ← getAsset p.assets fi.1
    let amt ← addCk a.balance.amount token.amount
    let a' := { a with balance := { a.balance with amount := amt } }
    .ok (token, { p with assets := p.assets.set fi.1 a' })

/-- `add_supply` of the ics101 `market` module (absent from `src/`; mirrored
from `src/101-integration/contracts/src/market.rs`). -/
def add_supply (p : InterchainLiquidityPool) (token : Coin) :
    Except CErr (Coin × InterchainLiquidityPool) :=
  if p.supply.denom == token.denom then do
    let amt ← addCk p.supply.amount token.amount
    .ok (token, { p with supply := { p.supply with amount := amt } })
  else .error (.std "Denom not found")

/-- `POOLS.may_load` followed by the pool-not-found early return. -/
def loadPool (st : ContractState) (pid : String) (emsg : String) :
    Except CErr InterchainLiquidityPool :=
  match mapGet st.pools pid with
  | some p => .ok p
  | none => .error (.std emsg)

/-- `MULTI_ASSET_DEPOSIT_ORDERS.may_load` followed by the order-not-found
early return. -/
def loadOrder (st : ContractState) (key : String) :
    Except CErr MultiAssetDepositOrder :=
  match mapGet st.orders key with
  | some o => .ok o
  | none => .error .errOrderNotFound

/-- `POOL_TOKENS_LIST.may_load` followed by the LP-token-not-initialized
early return. -/
def loadLpToken (st : ContractState) (pid : String) : Except CErr String :=
  match mapGet st.poolTokensList pid with
  | some lp => .ok lp
  | none => .error (.std "LP Token is not initialized")

/-- Modelled from the spec: `get_order_id` lives in the `utils` module, which
is absent from `src/`; the spec says the order id is derived from the maker
identity and the monotonic counter. -/
def get_order_id (maker : String) (counter : Nat) : String :=
  maker ++ "-" ++ toString counter

/-- Modelled from the spec: `get_coins_from_deposits` lives in the `utils`
module, which is absent from `src/`; the spec says an order stores its
deposits as the ordered pair of coins of the request. -/
def get_coins_from_deposits (l : List DepositAsset) : List Coin :=
  l.map (fun d => d.balance)

/-- `for pool in pool_tokens { new_shares += pool.unwrap().amount }`. -/
def sumPoolTokens : List (Option Coin) → Nat → Except CErr Nat
  | [], acc => .ok acc
  | o :: rest, acc => do
      let c ← unwrapOpt o
      let acc' ← addCk acc c.amount
      sumPoolTokens rest acc'

/-- `for asset in deposits { pool.add_asset(asset)? }`. -/
def addAssetsLoop (p : InterchainLiquidityPool) :
    List Coin → Except CErr InterchainLiquidityPool
  | [] => .ok p
  | c :: rest => do
      let r ← add_asset p c
      addAssetsLoop r.2 rest

/-- The funds check of `take_multi_asset_deposit`: some attached coin must
match the source-side pool denom and the second order deposit (which is
indexed inside the loop, so an out-of-bounds deposit list panics only when
funds are attached). -/
def checkFundsTake (funds : List Coin) (tokenDenom : String)
    (deps : List Coin) : Except CErr Bool :=
  match funds with
  | [] => .ok false
  | a :: rest => do
      let d1 ← vecIdx deps 1
      let hit := a.denom == tokenDenom && d1.amount == a.amount && a.denom == d1.denom
      let tail ← checkFundsTake rest tokenDenom deps
      .ok (hit || tail)

end Ics101

namespace Ics101

/-- The `cancel_pool` execute handler (contract.rs): only the source creator
may cancel, and only in `Initialized` status; on success it just emits the
cancel-pool packet (no local state change). -/
def cancel_pool (st : ContractState) (info : MessageInfo)
    (msg : MsgCancelPoolRequest) : Except CErr ExecResult := do
  let pool ← loadPool st msg.poolId ("Pool does not exist " ++ msg.poolId)
  if pool.status ≠ PoolStatus.Initialized then .error .invalidStatus
  else if pool.sourceCreator ≠ info.sender then .error .invalidSender
  else .ok ⟨st, some ⟨pool.counterPartyChannel, .CancelPool⟩⟩

/-- The `on_received_cancel_pool` receive handler (interchainswap_handler.rs):
it checks only that the pool exists, then deletes the pool record
unconditionally (the status assignment before the removal has no effect). -/
def on_received_cancel_pool (st : ContractState) (msg : MsgCancelPoolRequest) :
    Except CErr RecvResult := do
  let _pool ← loadPool st msg.poolId "Pool not found"
  let st' := { st with pools := mapRemove st.pools msg.poolId }
  .ok ⟨st', [], []⟩

/-- The `make_multi_asset_deposit` execute handler (contract.rs).  The
active-order duplicate check (`ErrPreviousOrderNotCompleted`) is commented
out in the source, so no such check happens here either.  The market-maker
computation (`amm.deposit_multi_asset`) lives in the ics101 `market` module,
absent from `src/`, and is taken as the parameter `ammDeposit`. -/
def make_multi_asset_deposit
    (ammDeposit : InterchainLiquidityPool → List Coin → Except CErr (List (Option Coin)))
    (st : ContractState) (envHeight : Nat) (info : MessageInfo)
    (msg : MsgMakeMultiAssetDepositRequest) : Except CErr ExecResult := do
  let pool ← loadPool st msg.poolId ("Pool does not exist " ++ msg.poolId)
  let d0 ← vecIdx msg.deposits 0
  let d1 ← vecIdx msg.deposits 1
  let tokens0 := d0.balance
  let tokens1 := d1.balance
  let fundsOk := info.funds.any (fun a =>
    (a.denom == tokens0.denom && a.amount == tokens0.amount) ||
    (a.denom == tokens1.denom && a.amount == tokens1.amount))
  if fundsOk = false then
    .error (.std "Funds mismatch: Funds mismatched to with message and sent values: Make Pool")
  else if pool.status ≠ PoolStatus.Active then .error .notReadyForSwap
  else do
    let _poolTokens ← ammDeposit pool [tokens0, tokens1]
    let config := st.config
    let acKey := d0.sender ++ "-" ++ msg.poolId ++ "-" ++ d1.sender
    let counter' := config.counter + 1
    let orderId := get_order_id d0.sender counter'
    let order : MultiAssetDepositOrder :=
      ⟨orderId, msg.chainId, msg.poolId, d0.sender, d1.sender,
        get_coins_from_deposits msg.deposits, .Pending, envHeight⟩
    let key := msg.poolId ++ "-" ++ orderId
    let st1 := { st with orders := mapSet st.orders key order }
    let st2 := { st1 with activeOrders := mapSet st1.activeOrders acKey order }
    let st3 := { st2 with config := { config with counter := counter' } }
    .ok ⟨st3, some ⟨pool.counterPartyChannel, .MakeMultiDeposit⟩⟩

/-- The `on_received_make_multi_deposit` receive handler
(interchainswap_handler.rs): mirrors the order under the id carried in the
packet state change, marks it `Pending`, indexes it, and bumps the counter. -/
def on_received_make_multi_deposit (st : ContractState) (envHeight : Nat)
    (msg : MsgMakeMultiAssetDepositRequest) (sc : StateChange) :
    Except CErr RecvResult := do
  let _pool ← loadPool st msg.poolId "Pool not found"
  let counter' := st.config.counter + 1
  let oid ← unwrapOpt sc.multiDepositOrderId
  let d0 ← vecIdx msg.deposits 0
  let d1 ← vecIdx msg.deposits 1
  let order : MultiAssetDepositOrder :=
    ⟨oid, msg.chainId, msg.poolId, d0.sender, d1.sender,
      get_coins_from_deposits msg.deposits, .Pending, envHeight⟩
  let key := msg.poolId ++ "-" ++ oid
  let acKey := d0.sender ++ "-" ++ msg.poolId ++ "-" ++ d1.sender
  let st1 := { st with orders := mapSet st.orders key order }
  let st2 := { st1 with activeOrders := mapSet st1.activeOrders acKey order }
  let st3 := { st2 with config := { st.config with counter := counter' } }
  .ok ⟨st3, [], []⟩

/-- The `take_multi_asset_deposit` execute handler (contract.rs): rejects a
wrong taker and an order whose status is already `Complete`, verifies funds
against the second order deposit, runs the market-maker computation, and
emits the take packet (no local state change). -/
def take_multi_asset_deposit
    (ammDeposit : InterchainLiquidityPool → List Coin → Except CErr (List (Option Coin)))
    (st : ContractState) (info : MessageInfo)
    (msg : MsgTakeMultiAssetDepositRequest) : Except CErr ExecResult := do
  let pool ← loadPool st msg.poolId ("Pool does not exist " ++ msg.poolId)
  let key := msg.poolId ++ "-" ++ msg.orderId
  let order ← loadOrder st key
  if order.destinationTaker ≠ info.sender then .error .errFailedMultiAssetDeposit
  else if order.status = OrderStatus.Complete then .error .errOrderAlreadyCompleted
  else do
    let token ← find_asset_by_side pool .SOURCE
    let fundsOk ← checkFundsTake info.funds token.balance.denom order.deposits
    if fundsOk = false then
      .error (.std "Funds mismatch: Funds mismatched to with message and sent values: Take Multi Asset")
    else do
      let _poolTokens ← ammDeposit pool order.deposits
      .ok ⟨st, some ⟨pool.counterPartyChannel, .TakeMultiDeposit⟩⟩

/-- The `on_received_take_multi_deposit` receive handler
(interchainswap_handler.rs): loads the order (with no check that it is still
pending), marks it `Complete`, drops its active-order index entry, sums the
packet's pool tokens into `new_shares`, mints them to the maker, and adds
the shares and the order deposits onto the pool. -/
def on_received_take_multi_deposit (st : ContractState)
    (msg : MsgTakeMultiAssetDepositRequest) (sc : StateChange) :
    Except CErr RecvResult := do
  let pool ← loadPool st msg.poolId "Pool not found"
  let key := msg.poolId ++ "-" ++ msg.orderId
  let order0 ← loadOrder st key
  let order := { order0 with status := OrderStatus.Complete }
  let acKey := order.sourceMaker ++ "-" ++ msg.poolId ++ "-" ++ order.destinationTaker
  let activeOrders' := mapRemove st.activeOrders acKey
  let newShares ← sumPoolTokens sc.poolTokens 0
  let lp ← loadLpToken st msg.poolId
  let r1 ← add_supply pool ⟨msg.poolId, newShares⟩
  let pool2 ← addAssetsLoop r1.2 order.deposits
  let st1 := { st with orders := mapSet st.orders key order }
  let st2 := { st1 with pools := mapSet st1.pools msg.poolId pool2 }
  let st3 := { st2 with activeOrders := activeOrders' }
  .ok ⟨st3, [(order.sourceMaker, lp, newShares)], []⟩

/-- The slippage-relevant branch selection of `swap`: left swaps price the
exact input, right swaps price the exact output.  Both computations live in
the ics101 `market` module, absent from `src/`, and are taken as the
parameters `ammComputeSwap` / `ammComputeOffer`. -/
def computePair
    (ammComputeSwap : InterchainLiquidityPool → Coin → String → Except CErr Coin)
    (ammComputeOffer : InterchainLiquidityPool → Coin → Coin → Except CErr Coin)
    (pool : InterchainLiquidityPool) (msg : MsgSwapRequest) :
    Except CErr (SwapMessageType × Coin) :=
  match msg.swapType with
  | .LEFT => do
      let t ← ammComputeSwap pool msg.tokenIn msg.tokenOut.denom
      .ok (.LeftSwap, t)
  | .RIGHT => do
      let t ← ammComputeOffer pool msg.tokenIn msg.tokenOut
      .ok (.RightSwap, t)

/-- The `swap` execute handler (contract.rs): pool must exist and be active,
funds must match the declared input, then the slippage check
`expected = token_out.amount * (10000 - slippage) / 10000` rejects the swap
before the packet is built whenever the computed output is below `expected`;
otherwise the packet is sent. -/
def swap
    (ammComputeSwap : InterchainLiquidityPool → Coin → String → Except CErr Coin)
    (ammComputeOffer : InterchainLiquidityPool → Coin → Coin → Except CErr Coin)
    (st : ContractState) (info : MessageInfo) (msg : MsgSwapRequest) :
    Except CErr ExecResult := do
  let pool ← loadPool st msg.poolId ("Pool does not exist " ++ msg.poolId)
  if pool.status ≠ PoolStatus.Active then .error .notReadyForSwap
  else do
    let fundsOk := info.funds.any (fun a =>
      a.denom == msg.tokenIn.denom && a.amount == msg.tokenIn.amount)
    if fundsOk = false then
      .error (.std "Funds mismatch: Funds mismatched to with message and sent values: Swap")
    else do
      let pair ← computePair ammComputeSwap ammComputeOffer pool msg
      let factor ← subCk MAXIMUM_SLIPPAGE msg.slippage
      let expectedNum ← mulCk msg.tokenOut.amount factor
      let expected := expectedNum / MAXIMUM_SLIPPAGE
      if pair.2.amount < expected then
        .error (.failedOnSwapReceived "slippage check failed")
      else .ok ⟨st, some ⟨pool.counterPartyChannel, pair.1⟩⟩

/-- The `MakeMultiDeposit` branch of `refund_packet_token`
(interchainswap_handler.rs): refund the first deposit to the maker, remove
the order (note the source builds this key without the `-` separator),
remove the active-order entry if present, and decrement the counter. -/
def refund_make_multi_deposit (st : ContractState)
    (msg : MsgMakeMultiAssetDepositRequest) (sc : StateChange) :
    Except CErr RecvResult := do
  let d0 ← vecIdx msg.deposits 0
  let send := (d0.sender, d0.balance)
  let d1 ← vecIdx msg.deposits 1
  let acKey := d0.sender ++ "-" ++ msg.poolId ++ "-" ++ d1.sender
  let oid ← unwrapOpt sc.multiDepositOrderId
  let key := msg.poolId ++ oid
  let counter' ← subCk st.config.counter 1
  let orders' := mapRemove st.orders key
  let activeOrders' :=
    match mapGet st.activeOrders acKey with
    | some _ => mapRemove st.activeOrders acKey
    | none => st.activeOrders
  let st1 := { st with orders := orders' }
  let st2 := { st1 with activeOrders := activeOrders' }
  let st3 := { st2 with config := { st.config with counter := counter' } }
  .ok ⟨st3, [], [send]⟩

end Ics101

namespace Ics101

theorem subCk_inv {a b v : Nat} (h : subCk a b = .ok v) : v = a - b ∧ b ≤ a := by
  unfold subCk at h
  by_cases hle : b ≤ a
  · rw [if_pos hle] at h; cases h; exact ⟨rfl, hle⟩
  · rw [if_neg hle] at h; cases h

theorem subCk_ok {a b : Nat} (h : b ≤ a) : subCk a b = .ok (a - b) := by
  unfold subCk; rw [if_pos h]

theorem mulCk_ok {a b : Nat} (h : a * b < U128) : mulCk a b = .ok (a * b) := by
  unfold mulCk; rw [if_pos h]

/-- `cancel_pool` never mutates state. -/
theorem cancel_pool_state (st : ContractState) (info : MessageInfo)
    (msg : MsgCancelPoolRequest) (r : ExecResult)
    (h : cancel_pool st info msg = .ok r) : r.state = st := by
  simp only [cancel_pool] at h
  obtain ⟨pool, _, h⟩ := mbind_ok_inv _ _ _ h
  split at h
  · cases h
  · split at h
    · cases h
    · cases h; rfl

/-- `on_received_cancel_pool` does not touch the config. -/
theorem cancel_pool_recv_config (st : ContractState) (msg : MsgCancelPoolRequest)
    (r : RecvResult) (h : on_received_cancel_pool st msg = .ok r) :
    r.state.config = st.config := by
  simp only [on_received_cancel_pool] at h
  obtain ⟨pool, _, h⟩ := mbind_ok_inv _ _ _ h
  cases h; rfl

/-- `make_multi_asset_deposit` increments the counter by exactly one. -/
theorem make_multi_config
    (amm : InterchainLiquidityPool → List Coin → Except CErr (List (Option Coin)))
    (st : ContractState) (envHeight : Nat) (info : MessageInfo)
    (msg : MsgMakeMultiAssetDepositRequest) (r : ExecResult)
    (h : make_multi_asset_deposit amm st envHeight info msg = .ok r) :
    r.state.config.counter = st.config.counter + 1 := by
  simp only [make_multi_asset_deposit] at h
  obtain ⟨pool, _, h⟩ := mbind_ok_inv _ _ _ h
  obtain ⟨d0, _, h⟩ := mbind_ok_inv _ _ _ h
  obtain ⟨d1, _, h⟩ := mbind_ok_inv _ _ _ h
  split at h
  · cases h
  · split at h
    · cases h
    · obtain ⟨pt, _, h⟩ := mbind_ok_inv _ _ _ h
      cases h; rfl

/-- `on_received_make_multi_deposit` increments the counter by exactly one. -/
theorem make_multi_recv_config (st : ContractState) (envHeight : Nat)
    (msg : MsgMakeMultiAssetDepositRequest) (sc : StateChange) (r : RecvResult)
    (h : on_received_make_multi_deposit st envHeight msg sc = .ok r) :
    r.state.config.counter = st.config.counter + 1 := by
  simp only [on_received_make_multi_deposit] at h
  obtain ⟨pool, _, h⟩ := mbind_ok_inv _ _ _ h
  obtain ⟨oid, _, h⟩ := mbind_ok_inv _ _ _ h
  obtain ⟨d0, _, h⟩ := mbind_ok_inv _ _ _ h
  obtain ⟨d1, _, h⟩ := mbind_ok_inv _ _ _ h
  cases h; rfl

/-- `take_multi_asset_deposit` never mutates state. -/
theorem take_multi_state
    (amm : InterchainLiquidityPool → List Coin → Except CErr (List (Option Coin)))
    (st : ContractState) (info : MessageInfo)
    (msg : MsgTakeMultiAssetDepositRequest) (r : ExecResult)
    (h : take_multi_asset_deposit amm st info msg = .ok r) : r.state = st := by
  simp only [take_multi_asset_deposit] at h
  obtain ⟨pool, _, h⟩ := mbind_ok_inv _ _ _ h
  obtain ⟨order, _, h⟩ := mbind_ok_inv _ _ _ h
  split at h
  · cases h
  · split at h
    · cases h
    · obtain ⟨token, _, h⟩ := mbind_ok_inv _ _ _ h
      obtain ⟨fo, _, h⟩ := mbind_ok_inv _ _ _ h
      split at h
      · cases h
      · obtain ⟨pt, _, h⟩ := mbind_ok_inv _ _ _ h
        cases h; rfl

/-- `on_received_take_multi_deposit` does not touch the config. -/
theorem take_multi_recv_config (st : ContractState)
    (msg : MsgTakeMultiAssetDepositRequest) (sc : StateChange) (r : RecvResult)
    (h : on_received_take_multi_deposit st msg sc = .ok r) :
    r.state.config = st.config := by
  simp only [on_received_take_multi_deposit] at h
  obtain ⟨pool, _, h⟩ := mbind_ok_inv _ _ _ h
  obtain ⟨order0, _, h⟩ := mbind_ok_inv _ _ _ h
  obtain ⟨newShares, _, h⟩ := mbind_ok_inv _ _ _ h
  obtain ⟨lp, _, h⟩ := mbind_ok_inv _ _ _ h
  obtain ⟨r1, _, h⟩ := mbind_ok_inv _ _ _ h
  obtain ⟨pool2, _, h⟩ := mbind_ok_inv _ _ _ h
  cases h; rfl

/-- `swap` never mutates state. -/
theorem swap_state
    (ammS : InterchainLiquidityPool → Coin → String → Except CErr Coin)
    (ammO : InterchainLiquidityPool → Coin → Coin → Except CErr Coin)
    (st : ContractState) (info : MessageInfo) (msg : MsgSwapRequest)
    (r : ExecResult) (h : swap ammS ammO st info msg = .ok r) : r.state = st := by
  simp only [swap] at h
  obtain ⟨pool, _, h⟩ := mbind_ok_inv _ _ _ h
  split at h
  · cases h
  · split at h
    · cases h
    · obtain ⟨pair, _, h⟩ := mbind_ok_inv _ _ _ h
      obtain ⟨factor, _, h⟩ := mbind_ok_inv _ _ _ h
      obtain ⟨en, _, h⟩ := mbind_ok_inv _ _ _ h
      split at h
      · cases h
      · cases h; rfl

/-- The make-multi-deposit refund decrements the counter by exactly one. -/
theorem refund_config (st : ContractState)
    (msg : MsgMakeMultiAssetDepositRequest) (sc : StateChange) (r : RecvResult)
    (h : refund_make_multi_deposit st msg sc = .ok r) :
    r.state.config.counter + 1 = st.config.counter := by
  simp only [refund_make_multi_deposit] at h
  obtain ⟨d0, _, h⟩ := mbind_ok_inv _ _ _ h
  obtain ⟨d1, _, h⟩ := mbind_ok_inv _ _ _ h
  obtain ⟨oid, _, h⟩ := mbind_ok_inv _ _ _ h
  obtain ⟨counter', hc, h⟩ := mbind_ok_inv _ _ _ h
  obtain ⟨hv, hle⟩ := subCk_inv hc
  cases h
  simp only [hv]
  omega

end Ics101

namespace Ics101

/-- One step of the embedded contract: the execute entry points, packet
receive handlers and the acknowledge-failure refund path embedded above.
The market-maker computations are carried as parameters of the step. -/
inductive Step where
  | cancelPoolLocal (info : MessageInfo) (msg : MsgCancelPoolRequest)
  | cancelPoolRecv (msg : MsgCancelPoolRequest)
  | makeMultiLocal
      (amm : InterchainLiquidityPool → List Coin → Except CErr (List (Option Coin)))
      (envHeight : Nat) (info : MessageInfo) (msg : MsgMakeMultiAssetDepositRequest)
  | makeMultiRecv (envHeight : Nat) (msg : MsgMakeMultiAssetDepositRequest)
      (sc : StateChange)
  | takeMultiLocal
      (amm : InterchainLiquidityPool → List Coin → Except CErr (List (Option Coin)))
      (info : MessageInfo) (msg : MsgTakeMultiAssetDepositRequest)
  | takeMultiRecv (msg : MsgTakeMultiAssetDepositRequest) (sc : StateChange)
  | swapLocal
      (ammS : InterchainLiquidityPool → Coin → String → Except CErr Coin)
      (ammO : InterchainLiquidityPool → Coin → Coin → Except CErr Coin)
      (info : MessageInfo) (msg : MsgSwapRequest)
  | refundMakeMulti (msg : MsgMakeMultiAssetDepositRequest) (sc : StateChange)

/-- Run one step against the contract state. -/
def runStep : Step → ContractState → Except CErr ContractState
  | .cancelPoolLocal info msg, st =>
      (cancel_pool st info msg).map (fun r => r.state)
  | .cancelPoolRecv msg, st =>
      (on_received_cancel_pool st msg).map (fun r => r.state)
  | .makeMultiLocal amm envHeight info msg, st =>
      (make_multi_asset_deposit amm st envHeight info msg).map (fun r => r.state)
  | .makeMultiRecv envHeight msg sc, st =>
      (on_received_make_multi_deposit st envHeight msg sc).map (fun r => r.state)
  | .takeMultiLocal amm info msg, st =>
      (take_multi_asset_deposit amm st info msg).map (fun r => r.state)
  | .takeMultiRecv msg sc, st =>
      (on_received_take_multi_deposit st msg sc).map (fun r => r.state)
  | .swapLocal ammS ammO info msg, st =>
      (swap ammS ammO st info msg).map (fun r => r.state)
  | .refundMakeMulti msg sc, st =>
      (refund_make_multi_deposit st msg sc).map (fun r => r.state)

/-- Is this step one of the two order-creating operations? -/
def Step.isOrderCreating : Step → Bool
  | .makeMultiLocal .. => true
  | .makeMultiRecv .. => true
  | _ => false

/-- Is this step the make-multi-deposit failure-refund path? -/
def Step.isMakeMultiRefund : Step → Bool
  | .refundMakeMulti .. => true
  | _ => false

theorem map_ok_inv {e a b : Type} (x : Except e a) (f : a → b) (r : b)
    (h : Except.map f x = .ok r) : ∃ v, x = .ok v ∧ f v = r := by
  cases x with
  | ok v => exact ⟨v, rfl, by cases h; rfl⟩
  | error err => cases h

end Ics101

namespace Ics101

/-- Concrete make-multi-deposit request shared by the C4 and C6 scenarios. -/
def msgC4 : MsgMakeMultiAssetDepositRequest :=
  { poolId := "p4", chainId := "chain-b",
    deposits := [{ sender := "maker", balance := { denom := "foo", amount := 10 } },
                 { sender := "taker", balance := { denom := "bar", amount := 20 } }] }

/-- Concrete state with counter 5 for the C6 counterexample. -/
def stC6 : ContractState :=
  { pools := [], orders := [], activeOrders := [], poolTokensList := [],
    config := { counter := 5, tokenCodeId := 1 } }

end Ics101

/-- C6, amended.  Across every embedded step, `Config.counter` is incremented
by exactly one on the two order-creating operations (local make-multi-deposit
and its receive mirror), decremented by exactly one on the
make-multi-deposit failure-refund path, and unchanged by every other
operation; in particular it never decreases except on that refund step. -/
theorem c6_counter_step_amended :
    ∀ (s : Ics101.Step) (st st' : Ics101.ContractState),
      Ics101.runStep s st = .ok st' →
      (s.isMakeMultiRefund = true → st'.config.counter + 1 = st.config.counter) ∧
      (s.isOrderCreating = true → st'.config.counter = st.config.counter + 1) ∧
      (s.isMakeMultiRefund = false → s.isOrderCreating = false →
        st'.config.counter = st.config.counter) := by
  intro s st st' h
  cases s with
  | cancelPoolLocal info msg =>
      simp only [Ics101.runStep] at h
      obtain ⟨r, hr, hmap⟩ := Ics101.map_ok_inv _ _ _ h
      refine ⟨fun hx => Bool.noConfusion hx, fun hx => Bool.noConfusion hx,
        fun _ _ => ?_⟩
      rw [← hmap, Ics101.cancel_pool_state st info msg r hr]
  | cancelPoolRecv msg =>
      simp only [Ics101.runStep] at h
      obtain ⟨r, hr, hmap⟩ := Ics101.map_ok_inv _ _ _ h
      refine ⟨fun hx => Bool.noConfusion hx, fun hx => Bool.noConfusion hx,
        fun _ _ => ?_⟩
      rw [← hmap, Ics101.cancel_pool_recv_config st msg r hr]
  | makeMultiLocal amm envHeight info msg =>
      simp only [Ics101.runStep] at h
      obtain ⟨r, hr, hmap⟩ := Ics101.map_ok_inv _ _ _ h
      refine ⟨fun hx => Bool.noConfusion hx, fun _ => ?_,
        fun _ hx => Bool.noConfusion hx⟩
      rw [← hmap]
      exact Ics101.make_multi_config amm st envHeight info msg r hr
  | makeMultiRecv envHeight msg sc =>
      simp only [Ics101.runStep] at h
      obtain ⟨r, hr, hmap⟩ := Ics101.map_ok_inv _ _ _ h
      refine ⟨fun hx => Bool.noConfusion hx, fun _ => ?_,
        fun _ hx => Bool.noConfusion hx⟩
      rw [← hmap]
      exact Ics101.make_multi_recv_config st envHeight msg sc r hr
  | takeMultiLocal amm info msg =>
      simp only [Ics101.runStep] at h
      obtain ⟨r, hr, hmap⟩ := Ics101.map_ok_inv _ _ _ h
      refine ⟨fun hx => Bool.noConfusion hx, fun hx => Bool.noConfusion hx,
        fun _ _ => ?_⟩
      rw [← hmap, Ics101.take_multi_state amm st info msg r hr]
  | takeMultiRecv msg sc =>
      simp only [Ics101.runStep] at h
      obtain ⟨r, hr, hmap⟩ := Ics101.map_ok_inv _ _ _ h
      refine ⟨fun hx => Bool.noConfusion hx, fun hx => Bool.noConfusion hx,
        fun _ _ => ?_⟩
      rw [← hmap, Ics101.take_multi_recv_config st msg sc r hr]
  | swapLocal ammS ammO info msg =>
      simp only [Ics101.runStep] at h
      obtain ⟨r, hr, hmap⟩ := Ics101.map_ok_inv _ _ _ h
      refine ⟨fun hx => Bool.noConfusion hx, fun hx => Bool.noConfusion hx,
        fun _ _ => ?_⟩
      rw [← hmap, Ics101.swap_state ammS ammO st info msg r hr]
  | refundMakeMulti msg sc =>
      simp only [Ics101.runStep] at h
      obtain ⟨r, hr, hmap⟩ := Ics101.map_ok_inv _ _ _ h
      refine ⟨fun _ => ?_, fun hx => Bool.noConfusion hx,
        fun hx _ => Bool.noConfusion hx⟩
      rw [← hmap]
      exact Ics101.refund_config st msg sc r hr

/-- Witness for C6: a concrete refund step on `stC6` (counter 5) that lands
on counter 4, exercising the refund clause of the amended statement. -/
theorem c6_counter_step_amended_witness :
    (Ics101.Step.refundMakeMulti Ics101.msgC4
        ⟨[], some "o9"⟩).isMakeMultiRefund = true ∧
    (match Ics101.runStep (.refundMakeMulti Ics101.msgC4 ⟨[], some "o9"⟩)
        Ics101.stC6 with
     | .ok st' => st'.config.counter + 1 = Ics101.stC6.config.counter
     | .error _ => False) :=
  ⟨by decide, by
    have h : Ics101.runStep (.refundMakeMulti Ics101.msgC4 ⟨[], some "o9"⟩)
        Ics101.stC6 = .ok { Ics101.stC6 with
          config := { counter := 4, tokenCodeId := 1 } } := by decide
    rw [h]
    exact (c6_counter_step_amended
      (.refundMakeMulti Ics101.msgC4 ⟨[], some "o9"⟩) Ics101.stC6 _ h).1 rfl⟩

/-- C6 counterexample: the make-multi-deposit refund path decrements the
counter, so the counter does decrease across a step (from 5 to 4 here). -/
theorem c6_counter_decreases_on_refund :
    (match Ics101.refund_make_multi_deposit Ics101.stC6 Ics101.msgC4
        ⟨[], some "o9"⟩ with
     | .ok r => some r.state.config.counter
     | .error _ => none) = some 4 ∧
    Ics101.stC6.config.counter = 5 ∧ ¬(5 ≤ 4) := by
  decide

namespace Ics101

/-- Market-maker stub used where the (absent) `market` computation is never
reached or its value is irrelevant to the property under test. -/
def ammStub : InterchainLiquidityPool → List Coin → Except CErr (List (Option Coin)) :=
  fun _ _ => .ok []

/-- Concrete active pool for the C1 scenario. -/
def poolC1 : InterchainLiquidityPool :=
  { assets := [{ side := .SOURCE, balance := { denom := "foo", amount := 100 },
                 weight := 50, decimal := 6 },
               { side := .DESTINATION, balance := { denom := "bar", amount := 100 },
                 weight := 50, decimal := 6 }]
    counterPartyChannel := "channel-1"
    counterPartyPort := "port-1"
    destinationCreator := "taker"
    id := "p1"
    sourceChainId := "chain-a"
    destinationChainId := "chain-b"
    sourceCreator := "maker"
    status := .Active
    supply := { denom := "p1", amount := 100 }
    swapFee := 300
    poolPrice := 0 }

/-- An order already finalized by a first take. -/
def orderC1 : MultiAssetDepositOrder :=
  { id := "o1", chainId := "chain-b", poolId := "p1", sourceMaker := "maker",
    destinationTaker := "taker",
    deposits := [{ denom := "foo", amount := 10 }, { denom := "bar", amount := 20 }],
    status := .Complete, createdAt := 5 }

/-- State holding `poolC1` and the completed order `o1`. -/
def stC1 : ContractState :=
  { pools := [("p1", poolC1)], orders := [("p1-o1", orderC1)],
    activeOrders := [], poolTokensList := [("p1", "lp-token")],
    config := { counter := 3, tokenCodeId := 1 } }

end Ics101

/-- C1: a second local `take_multi_asset_deposit` on the completed order does
fail with the already-completed error, but a second delivery of the take
packet to `on_received_take_multi_deposit` succeeds: the handler has no
terminal-status check, so it mints again and raises the pool supply from 100
to 133 (the packet carries 33 pool tokens), leaving the order `Complete`. -/
theorem c1_take_redelivery_double_mints :
    Ics101.take_multi_asset_deposit Ics101.ammStub Ics101.stC1 ⟨"taker", []⟩
      ⟨"taker", "p1", "o1"⟩ = .error .errOrderAlreadyCompleted ∧
    (match Ics101.on_received_take_multi_deposit Ics101.stC1
        ⟨"taker", "p1", "o1"⟩ ⟨[some ⟨"p1", 33⟩], some "o1"⟩ with
     | .ok r => some ((Ics101.mapGet r.state.pools "p1").map (fun p => p.supply.amount),
         r.mints.length,
         (Ics101.mapGet r.state.orders "p1-o1").map (fun o => o.status))
     | .error _ => none)
      = some (some 133, 1, some .Complete) ∧
    (Ics101.mapGet Ics101.stC1.pools "p1").map (fun p => p.supply.amount) =
      some 100 := by
  decide

namespace Ics101

/-- Concrete active pool and state for the C3 scenario. -/
def poolC3 : InterchainLiquidityPool :=
  { poolC1 with id := "p3", sourceCreator := "creator" }

def stC3 : ContractState :=
  { pools := [("p3", poolC3)], orders := [], activeOrders := [],
    poolTokensList := [], config := { counter := 0, tokenCodeId := 1 } }

end Ics101

/-- C3: cancelling the active pool `p3` locally is rejected with
`InvalidStatus`, but delivering a cancel-pool packet to
`on_received_cancel_pool` succeeds and deletes the stored pool record: the
receive handler checks nothing but pool existence. -/
theorem c3_cancel_active_pool_receive_deletes :
    Ics101.cancel_pool Ics101.stC3 ⟨"creator", []⟩ ⟨"p3"⟩ =
      .error .invalidStatus ∧
    (match Ics101.on_received_cancel_pool Ics101.stC3 ⟨"p3"⟩ with
     | .ok r => some (Ics101.mapGet r.state.pools "p3")
     | .error _ => none) = some none ∧
    (Ics101.mapGet Ics101.stC3.pools "p3").isSome = true := by
  decide

namespace Ics101

/-- Concrete active pool and state for the C4 scenario. -/
def poolC4 : InterchainLiquidityPool :=
  { poolC1 with id := "p4" }

def stC4 : ContractState :=
  { pools := [("p4", poolC4)], orders := [], activeOrders := [],
    poolTokensList := [], config := { counter := 0, tokenCodeId := 1 } }

end Ics101

/-- C4: `make_multi_asset_deposit` does not fail when the active-order index
already holds a live entry for the (maker, pool, taker) triple — the
duplicate check is commented out in the source — so two successive makes for
the same triple both succeed, leaving two `Pending` orders (ids `maker-1`
and `maker-2`) for that triple. -/
theorem c4_duplicate_active_order_allowed :
    (match Ics101.make_multi_asset_deposit Ics101.ammStub Ics101.stC4 7
        ⟨"maker", [⟨"foo", 10⟩]⟩ Ics101.msgC4 with
     | .ok r1 =>
        some ((Ics101.mapGet r1.state.activeOrders "maker-p4-taker").isSome,
          (match Ics101.make_multi_asset_deposit Ics101.ammStub r1.state 8
              ⟨"maker", [⟨"foo", 10⟩]⟩ Ics101.msgC4 with
           | .ok r2 =>
              some ((Ics101.mapGet r2.state.orders "p4-maker-1").map (fun o => o.status),
                (Ics101.mapGet r2.state.orders "p4-maker-2").map (fun o => o.status),
                (Ics101.mapGet r2.state.orders "p4-maker-1").map (fun o =>
                  (o.sourceMaker, o.poolId, o.destinationTaker)),
                (Ics101.mapGet r2.state.orders "p4-maker-2").map (fun o =>
                  (o.sourceMaker, o.poolId, o.destinationTaker)))
           | .error _ => none))
     | .error _ => none)
    = some (true, some (some .Pending, some .Pending,
        some ("maker", "p4", "taker"), some ("maker", "p4", "taker"))) := by
  rfl

/-- C7: for every swap request with slippage tolerance in 0–10000 that
reaches the slippage check (pool exists and is active, funds match, the
market-maker computation succeeds with output `out`, and the product
`token_out.amount * (10000 - slippage)` fits in `Uint128`), the swap is
rejected — with no packet — exactly when `out.amount` is strictly below
`token_out.amount * (10000 - slippage) / 10000` (integer multiply then
divide); otherwise the packet is sent on the pool's counterparty channel. -/
theorem c7_swap_slippage_gate :
    ∀ (ammS : Ics101.InterchainLiquidityPool → Coin → String → Except Ics101.CErr Coin)
      (ammO : Ics101.InterchainLiquidityPool → Coin → Coin → Except Ics101.CErr Coin)
      (st : Ics101.ContractState) (info : Ics101.MessageInfo)
      (msg : Ics101.MsgSwapRequest) (pool : Ics101.InterchainLiquidityPool)
      (mt : Ics101.SwapMessageType) (out : Coin),
      Ics101.loadPool st msg.poolId ("Pool does not exist " ++ msg.poolId) = .ok pool →
      pool.status = .Active →
      info.funds.any (fun a =>
        a.denom == msg.tokenIn.denom && a.amount == msg.tokenIn.amount) = true →
      Ics101.computePair ammS ammO pool msg = .ok (mt, out) →
      msg.slippage ≤ 10000 →
      msg.tokenOut.amount * (10000 - msg.slippage) < U128 →
      ((out.amount < msg.tokenOut.amount * (10000 - msg.slippage) / 10000 →
        Ics101.swap ammS ammO st info msg =
          .error (.failedOnSwapReceived "slippage check failed")) ∧
       (msg.tokenOut.amount * (10000 - msg.slippage) / 10000 ≤ out.amount →
        Ics101.swap ammS ammO st info msg =
          .ok ⟨st, some ⟨pool.counterPartyChannel, mt⟩⟩)) := by
  intro ammS ammO st info msg pool mt out hload hact hfunds hcp hslip hov
  have h10 : Ics101.MAXIMUM_SLIPPAGE = 10000 := rfl
  have hsub : Ics101.subCk Ics101.MAXIMUM_SLIPPAGE msg.slippage =
      .ok (10000 - msg.slippage) := by
    rw [h10]; exact Ics101.subCk_ok hslip
  have hmul : Ics101.mulCk msg.tokenOut.amount (10000 - msg.slippage) =
      .ok (msg.tokenOut.amount * (10000 - msg.slippage)) :=
    Ics101.mulCk_ok hov
  constructor
  · intro hlt
    simp only [Ics101.swap]
    rw [hload, mbindOk, if_neg (by rw [hact]; exact fun hc => hc rfl)]
    rw [hfunds]
    rw [if_neg (by exact fun hc => Bool.noConfusion hc)]
    rw [hcp, mbindOk, hsub, mbindOk, hmul, mbindOk, h10, if_pos hlt]
  · intro hge
    simp only [Ics101.swap]
    rw [hload, mbindOk, if_neg (by rw [hact]; exact fun hc => hc rfl)]
    rw [hfunds]
    rw [if_neg (by exact fun hc => Bool.noConfusion hc)]
    rw [hcp, mbindOk, hsub, mbindOk, hmul, mbindOk, h10,
      if_neg (Nat.not_lt.mpr hge)]

namespace Ics101

/-- Concrete pool/state and market-maker stubs for the C7 witness. -/
def poolC7 : InterchainLiquidityPool :=
  { poolC1 with id := "p7", counterPartyChannel := "channel-7" }

def stC7 : ContractState :=
  { pools := [("p7", poolC7)], orders := [], activeOrders := [],
    poolTokensList := [], config := { counter := 0, tokenCodeId := 1 } }

def ammSw : InterchainLiquidityPool → Coin → String → Except CErr Coin :=
  fun _ _ _ => .ok { denom := "bar", amount := 9 }

def ammOw : InterchainLiquidityPool → Coin → Coin → Except CErr Coin :=
  fun _ _ _ => .error (.std "unused")

def msgC7 : MsgSwapRequest :=
  { swapType := .LEFT, sender := "alice", poolId := "p7",
    tokenIn := { denom := "foo", amount := 10 },
    tokenOut := { denom := "bar", amount := 10 },
    slippage := 200, recipient := "alice" }

end Ics101

/-- Witness for C7: with declared output 10 and slippage 200 bp the minimum
acceptable output is `10 * 9800 / 10000 = 9`; a computed output of 9 passes
and the packet is emitted on the pool's counterparty channel. -/
theorem c7_swap_slippage_gate_witness :
    Ics101.swap Ics101.ammSw Ics101.ammOw Ics101.stC7
      ⟨"alice", [⟨"foo", 10⟩]⟩ Ics101.msgC7 =
      .ok ⟨Ics101.stC7, some ⟨"channel-7", .LeftSwap⟩⟩ :=
  (c7_swap_slippage_gate Ics101.ammSw Ics101.ammOw Ics101.stC7
      ⟨"alice", [⟨"foo", 10⟩]⟩ Ics101.msgC7 Ics101.poolC7 .LeftSwap ⟨"bar", 9⟩
      (by decide) (by decide) (by decide) (by decide) (by decide)
      (by decide)).2 (by decide)
